import Mathlib

/-!
Verification of the network-inventory extraction and CNA-01 evaluation core of
the fedrampgpt-ksi-checker repository.

The Python source (src/action/src/ksi/cna/shared/network_inventory.py,
src/action/src/ksi/cna/cna01/evaluator.py, src/shared/constants_cna.py,
src/shared/schemas_network.py) is shallowly embedded below.  Pure functions
become Lean functions; Python exceptions (ValueError raised by `int(...)`)
are modelled with `Except String`; Python `dict.get` reads of optional keys
become `Option` fields; HCL values that may be a scalar or a list become the
`OneOrMany` wrapper, and values that may be an int or a string become
`IntOrStr`.
-/

namespace KsiChecker

/-- Scalar HCL value that Python may see as `int` or `str`. -/
inductive IntOrStr where
  | int (n : Int)
  | str (s : String)
deriving Repr, DecidableEq

/-- Scalar HCL value that Python may see as `bool` or `str`. -/
inductive BoolOrStr where
  | bool (b : Bool)
  | str (s : String)
deriving Repr, DecidableEq

/-- HCL field that may be a bare scalar or a list of scalars
(the Python sources test `isinstance(x, str)` / `isinstance(x, dict)`
and wrap a bare scalar into a one-element list). -/
inductive OneOrMany (α : Type) where
  | one (a : α)
  | many (xs : List α)
deriving Repr, DecidableEq

/-- Normalisation of a scalar-or-list field to a list, as done at every
read site in the source (`if isinstance(x, str): x = [x]`). -/
def OneOrMany.toList {α : Type} : OneOrMany α → List α
  | .one a => [a]
  | .many xs => xs

/-- Normalisation of an optional scalar-or-list field whose Python default is
the empty list (`config.get(key, [])`). -/
def optListField {α : Type} : Option (OneOrMany α) → List α
  | Option.none => []
  | some v => v.toList

/-- Python `str.isdigit()` for ASCII strings: nonempty and all decimal digits. -/
def pyIsDigit (s : String) : Bool :=
  !s.data.isEmpty && s.data.all Char.isDigit

/-- Interpret a list of characters as a decimal number, `none` unless it is a
nonempty all-digit sequence.  Helper for the embedding of Python `int(str)`. -/
def digitsToNat (cs : List Char) : Option Nat :=
  if !cs.isEmpty && cs.all Char.isDigit then
    some (cs.foldl (fun a c => a * 10 + (c.toNat - 48)) 0)
  else Option.none

/-- Embedding of Python `int(s)` for a string argument: an optional single
sign character followed by at least one digit parses; anything else raises
`ValueError`, modelled as `none`. -/
def pyInt? (s : String) : Option Int :=
  match s.data with
  | [] => Option.none
  | c :: rest =>
    if c == '-' then (digitsToNat rest).map (fun n => -(n : Int))
    else if c == '+' then (digitsToNat rest).map (fun n => (n : Int))
    else (digitsToNat (c :: rest)).map (fun n => (n : Int))

/-- Python `str(x)` for an int-or-string value. -/
def IntOrStr.pyStr : IntOrStr → String
  | .int n => toString n
  | .str s => s

/-- Python `'-' in s` (substring test for the single character `-`). -/
def containsDash (s : String) : Bool := s.data.contains '-'

/-- Python `s.split(sep)` for a single-character separator, on char lists. -/
def splitChar (sep : Char) : List Char → List (List Char)
  | [] => [[]]
  | c :: cs =>
    if c == sep then [] :: splitChar sep cs
    else
      match splitChar sep cs with
      | [] => [[c]]
      | p :: ps => (c :: p) :: ps

/-- Python `s.split("-")`. -/
def pySplitDash (s : String) : List String :=
  (splitChar '-' s.data).map List.asString

/-- Python `repr` of a list of strings, as interpolated by the evaluator's
f-strings (e.g. `['0.0.0.0/0']`). -/
def pyReprStrList (xs : List String) : String :=
  "[" ++ String.intercalate ", " (xs.map (fun s => "\x27" ++ s ++ "\x27")) ++ "]"

/-- Python `str` of an optional int as interpolated in f-strings
(`None` for a missing value). -/
def pyStrOptInt : Option Int → String
  | Option.none => "None"
  | some n => toString n

/-- Python `s.lower()` (character-wise; kernel-reducible). -/
def pyLower (s : String) : String := String.mk (s.data.map Char.toLower)

/-- Python `s.upper()` (character-wise; kernel-reducible). -/
def pyUpper (s : String) : String := String.mk (s.data.map Char.toUpper)

/-- Python `s.endswith(suffix)` (kernel-reducible). -/
def pyEndsWith (s suffix : String) : Bool := suffix.data.isSuffixOf s.data

/-- Python truthiness of an optional string (`if source_sg:`). -/
def truthyOpt : Option String → Bool
  | Option.none => false
  | some s => !s.isEmpty

/-! ## Constants (src/shared/constants_cna.py) -/

/-- `UNRESTRICTED_CIDRS`: CIDR blocks that indicate unrestricted access. -/
def UNRESTRICTED_CIDRS : List String := ["0.0.0.0/0", "::/0"]

/-- `ALL_PROTOCOLS`: protocol tokens that mean "all protocols". -/
def ALL_PROTOCOLS : List String := ["-1", "all"]

/-- `SENSITIVE_PORTS`: port-to-service table, in source (insertion) order. -/
def SENSITIVE_PORTS : List (Int × String) :=
  [(22, "SSH"), (23, "Telnet"), (3389, "RDP"), (3306, "MySQL"),
   (5432, "PostgreSQL"), (1433, "MSSQL"), (1521, "Oracle"), (27017, "MongoDB"),
   (6379, "Redis"), (9200, "Elasticsearch"), (5900, "VNC"), (5901, "VNC"),
   (5902, "VNC"), (11211, "Memcached"), (2379, "etcd"), (2380, "etcd")]

/-! ## Unrestricted-access classifier (network_inventory.py lines 52-151) -/

/-- `bool(set(cidr_blocks) & UNRESTRICTED_CIDRS or set(ipv6_cidr_blocks) &
UNRESTRICTED_CIDRS)`: whether any CIDR of either list is unrestricted. -/
def hasUnrestrictedCidr (cidr_blocks ipv6_cidr_blocks : List String) : Bool :=
  cidr_blocks.any UNRESTRICTED_CIDRS.contains
    || ipv6_cidr_blocks.any UNRESTRICTED_CIDRS.contains

/-- `is_unrestricted_rule` (network_inventory.py lines 52-94). -/
def is_unrestricted_rule (cidr_blocks ipv6_cidr_blocks : List String)
    (from_port to_port : Option Int) (protocol : String) : Bool :=
  if !hasUnrestrictedCidr cidr_blocks ipv6_cidr_blocks then false
  else if ALL_PROTOCOLS.contains (pyLower protocol) then true
  else
    match from_port, to_port with
    | some f, some t => (f == 0 && t == 65535) || (f == -1 || t == -1)
    | _, _ => false

/-- One entry of the `exposed` list built by `check_sensitive_port_exposure`:
the dict `{"port": ..., "service": ..., "cidr": ...}`. -/
structure ExposureRecord where
  port : Int
  service : String
  cidr : List String
deriving Repr, DecidableEq

/-- `list(set(cidr_blocks) & UNRESTRICTED_CIDRS) or list(set(ipv6...) & ...)`:
the open CIDRs cited in an exposure record (IPv4 ones, falling back to IPv6
ones when no IPv4 CIDR is open).  Set iteration order is abstracted to
first-occurrence order with duplicates removed. -/
def openCidrList (cidr_blocks ipv6_cidr_blocks : List String) : List String :=
  let c4 := (cidr_blocks.filter UNRESTRICTED_CIDRS.contains).eraseDups
  if !c4.isEmpty then c4
  else (ipv6_cidr_blocks.filter UNRESTRICTED_CIDRS.contains).eraseDups

/-- `check_sensitive_port_exposure` (network_inventory.py lines 97-151). -/
def check_sensitive_port_exposure (cidr_blocks ipv6_cidr_blocks : List String)
    (from_port to_port : Option Int) (protocol : String) : List ExposureRecord :=
  if !hasUnrestrictedCidr cidr_blocks ipv6_cidr_blocks then []
  else if ALL_PROTOCOLS.contains (pyLower protocol) then
    SENSITIVE_PORTS.map (fun ps =>
      { port := ps.1, service := ps.2,
        cidr := openCidrList cidr_blocks ipv6_cidr_blocks })
  else
    match from_port, to_port with
    | some f, some t =>
      (SENSITIVE_PORTS.filter (fun ps => decide (f ≤ ps.1) && decide (ps.1 ≤ t))).map
        (fun ps =>
          { port := ps.1, service := ps.2,
            cidr := openCidrList cidr_blocks ipv6_cidr_blocks })
    | _, _ => []

/-! ## Canonical rule and security-group records (src/shared/schemas_network.py)

`IngressRule` and `EgressRule` have the same shape in the source; both are
embedded as `NetworkRule`. -/

/-- Canonical ingress/egress rule (schemas_network.py `IngressRule`/`EgressRule`). -/
structure NetworkRule where
  description : Option String := Option.none
  from_port : Option Int := Option.none
  to_port : Option Int := Option.none
  protocol : String
  cidr_blocks : List String := []
  ipv6_cidr_blocks : List String := []
  security_group_refs : List String := []
  self_reference : Bool := false
  is_unrestricted : Bool := false
deriving Repr, DecidableEq

/-- `SecurityGroupInfo` (schemas_network.py). -/
structure SecurityGroupInfo where
  resource_address : String
  name : Option String := Option.none
  description : Option String := Option.none
  vpc_id : Option String := Option.none
  source_file : String
  source_line : Option Int := Option.none
  ingress_rules : List NetworkRule := []
  egress_rules : List NetworkRule := []
  has_explicit_ingress : Bool := false
  has_explicit_egress : Bool := false
  has_unrestricted_ingress : Bool := false
  has_unrestricted_egress : Bool := false
  sensitive_ports_exposed : List ExposureRecord := []
deriving Repr, DecidableEq

/-- Effectful list map in the `Except` monad: the faithful translation of a
Python `for` loop whose body may raise, short-circuiting at the first error. -/
def exMap {α β : Type} (f : α → Except String β) : List α → Except String (List β)
  | [] => .ok []
  | x :: xs => do
    let y ← f x
    let ys ← exMap f xs
    .ok (y :: ys)

/-! ## AWS security-group parser (network_inventory.py lines 154-396) -/

/-- One AWS `ingress`/`egress` block as read from the parsed HCL dict.
`Option.none` in a field models an absent key (Python `dict.get` misses). -/
structure AwsRuleConfig where
  from_port : Option IntOrStr := Option.none
  to_port : Option IntOrStr := Option.none
  protocol : Option IntOrStr := Option.none
  description : Option String := Option.none
  cidr_blocks : Option (OneOrMany String) := Option.none
  ipv6_cidr_blocks : Option (OneOrMany String) := Option.none
  security_groups : Option (OneOrMany String) := Option.none
  source_security_group_id : Option String := Option.none
  self : Option BoolOrStr := Option.none
deriving Repr, DecidableEq

/-- An `aws_security_group` resource body. -/
structure AwsSgConfig where
  name : Option String := Option.none
  description : Option String := Option.none
  vpc_id : Option String := Option.none
  ingress : Option (OneOrMany AwsRuleConfig) := Option.none
  egress : Option (OneOrMany AwsRuleConfig) := Option.none
deriving Repr, DecidableEq

/-- Port coercion in `extract_security_group_rule` (lines 181-184):
`int(p) if p.lstrip("-").isdigit() else None` for strings, identity for ints,
where the unguarded `int(p)` may still raise `ValueError` (e.g. `"--5"`). -/
def coercePortField : Option IntOrStr → Except String (Option Int)
  | Option.none => .ok Option.none
  | some (.int n) => .ok (some n)
  | some (.str s) =>
    if pyIsDigit (String.mk (s.data.dropWhile (fun c => c == '-'))) then
      match pyInt? s with
      | some n => .ok (some n)
      | Option.none => .error "ValueError"
    else .ok Option.none

/-- `self` coercion (lines 208-210). -/
def coerceSelf : Option BoolOrStr → Bool
  | Option.none => false
  | some (.bool b) => b
  | some (.str s) => pyLower s == "true"

/-- `extract_security_group_rule` followed by the `IngressRule`/`EgressRule`
construction of `_parse_security_group` (lines 154-221 and 301-376):
produces one canonical rule, or raises on a bad port string. -/
def parseAwsRule (rc : AwsRuleConfig) : Except String NetworkRule := do
  let from_port ← coercePortField rc.from_port
  let to_port ← coercePortField rc.to_port
  let protocol := (rc.protocol.getD (IntOrStr.str "-1")).pyStr
  let cidr_blocks := optListField rc.cidr_blocks
  let ipv6_cidr_blocks := optListField rc.ipv6_cidr_blocks
  let security_group_refs := optListField rc.security_groups ++
    (if truthyOpt rc.source_security_group_id then
      [rc.source_security_group_id.getD ""] else [])
  .ok
    { description := rc.description
      from_port := from_port
      to_port := to_port
      protocol := protocol
      cidr_blocks := cidr_blocks
      ipv6_cidr_blocks := ipv6_cidr_blocks
      security_group_refs := security_group_refs
      self_reference := coerceSelf rc.self
      is_unrestricted :=
        is_unrestricted_rule cidr_blocks ipv6_cidr_blocks from_port to_port protocol }

/-- Sensitive-port exposures of one canonical rule, as computed inside the
parsers (`check_sensitive_port_exposure(cidr, ipv6, from, to, protocol)`). -/
def ruleExposures (r : NetworkRule) : List ExposureRecord :=
  check_sensitive_port_exposure r.cidr_blocks r.ipv6_cidr_blocks
    r.from_port r.to_port r.protocol

/-- `_parse_security_group` (lines 278-396). -/
def _parse_security_group (name : String) (config : AwsSgConfig)
    (file_path : String) (resource_type : String) :
    Except String SecurityGroupInfo := do
  let ingress_rules ← exMap parseAwsRule (optListField config.ingress)
  let sensitive_ports_exposed := (ingress_rules.map ruleExposures).flatten
  let egress_rules ← exMap parseAwsRule (optListField config.egress)
  .ok
    { resource_address := resource_type ++ "." ++ name
      name := config.name
      description := config.description
      vpc_id := config.vpc_id
      source_file := file_path
      ingress_rules := ingress_rules
      egress_rules := egress_rules
      has_explicit_ingress := !ingress_rules.isEmpty
      has_explicit_egress := !egress_rules.isEmpty
      has_unrestricted_ingress := ingress_rules.any (fun r => r.is_unrestricted)
      has_unrestricted_egress := egress_rules.any (fun r => r.is_unrestricted)
      sensitive_ports_exposed := sensitive_ports_exposed }

/-! ## Azure NSG parser (network_inventory.py lines 399-502) -/

/-- One Azure `security_rule` block.  The field `source_address_pfx` embeds
the source's `source_address_prefix` key. -/
structure AzureRuleConfig where
  direction : Option String := Option.none
  access : Option String := Option.none
  destination_port_range : Option IntOrStr := Option.none
  protocol : Option String := Option.none
  description : Option String := Option.none
  source_address_pfx : Option String := Option.none
  source_address_prefixes : Option (OneOrMany String) := Option.none
deriving Repr, DecidableEq

/-- An `azurerm_network_security_group` resource body. -/
structure AzureNsgConfig where
  name : Option String := Option.none
  security_rule : Option (OneOrMany AzureRuleConfig) := Option.none
deriving Repr, DecidableEq

/-- Azure `destination_port_range` parsing (lines 433-441): `"*"` maps to
`(0, 65535)`; a value whose string form contains `-` is split and both parts
converted with `int(...)` (raising `ValueError` on non-numeric parts); a bare
value maps to `(n, n)` when its string form is all digits, else `(None, None)`. -/
def azurePortRange (port_range : IntOrStr) : Except String (Option Int × Option Int) :=
  if port_range == IntOrStr.str "*" then .ok (some 0, some 65535)
  else if containsDash port_range.pyStr then
    let parts := pySplitDash port_range.pyStr
    match pyInt? (parts.getD 0 ""), pyInt? (parts.getD 1 "") with
    | some a, some b => .ok (some a, some b)
    | _, _ => .error "ValueError"
  else if pyIsDigit port_range.pyStr then
    match port_range with
    | .int n => .ok (some n, some n)
    | .str s =>
      match pyInt? s with
      | some n => .ok (some n, some n)
      | Option.none => .error "ValueError"
  else .ok (Option.none, Option.none)

/-- Azure protocol normalisation (lines 443-445): `"*"` maps to `"-1"`. -/
def azureProtocol (p : Option String) : String :=
  let p0 := p.getD "*"
  if p0 == "*" then "-1" else p0

/-- Azure CIDR-set construction (lines 447-457): `source_address_prefix`
`"*"`/`"Internet"` maps to `0.0.0.0/0`, any other nonempty value is kept,
and the `source_address_prefixes` list (only when it is a list) is appended. -/
def azureCidr (pfx : Option String) (pfxs : Option (OneOrMany String)) : List String :=
  let source := pfx.getD ""
  let base := if source == "*" || source == "Internet" then ["0.0.0.0/0"]
    else if !source.isEmpty then [source]
    else []
  base ++
    (match pfxs with
     | some (.many xs) => xs
     | _ => [])

/-- Contribution of one `security_rule` block: the (ingress, egress, exposure)
lists it appends (lines 421-489).  Deny rules (access not `allow` after
lowercasing) contribute nothing. -/
def azureRuleContribution (rc : AzureRuleConfig) :
    Except String (List NetworkRule × List NetworkRule × List ExposureRecord) :=
  if pyLower (rc.access.getD "") != "allow" then .ok ([], [], [])
  else do
    let (from_port, to_port) ←
      azurePortRange (rc.destination_port_range.getD (IntOrStr.str "*"))
    let protocol := azureProtocol rc.protocol
    let cidr_blocks := azureCidr rc.source_address_pfx rc.source_address_prefixes
    let r : NetworkRule :=
      { description := rc.description
        from_port := from_port
        to_port := to_port
        protocol := protocol
        cidr_blocks := cidr_blocks
        is_unrestricted :=
          is_unrestricted_rule cidr_blocks [] from_port to_port protocol }
    if pyLower (rc.direction.getD "") == "inbound" then
      .ok ([r], [], ruleExposures r)
    else
      .ok ([], [r], [])

/-- The accumulation loop of `_parse_azure_nsg` over its rule blocks. -/
def azureProcessRules :
    List AzureRuleConfig →
    Except String (List NetworkRule × List NetworkRule × List ExposureRecord)
  | [] => .ok ([], [], [])
  | rc :: rest => do
    let (i, e, x) ← azureRuleContribution rc
    let (is, es, xs) ← azureProcessRules rest
    .ok (i ++ is, e ++ es, x ++ xs)

/-- `_parse_azure_nsg` (lines 399-502). -/
def _parse_azure_nsg (name : String) (config : AzureNsgConfig)
    (file_path : String) : Except String SecurityGroupInfo := do
  let (ingress_rules, egress_rules, sensitive_ports_exposed) ←
    azureProcessRules (optListField config.security_rule)
  .ok
    { resource_address := "azurerm_network_security_group." ++ name
      name := config.name
      source_file := file_path
      ingress_rules := ingress_rules
      egress_rules := egress_rules
      has_explicit_ingress := !ingress_rules.isEmpty
      has_explicit_egress := !egress_rules.isEmpty
      has_unrestricted_ingress := ingress_rules.any (fun r => r.is_unrestricted)
      has_unrestricted_egress := egress_rules.any (fun r => r.is_unrestricted)
      sensitive_ports_exposed := sensitive_ports_exposed }

/-! ## GCP firewall parser (network_inventory.py lines 505-606) -/

/-- One GCP `allow` block. -/
structure GcpAllowBlock where
  protocol : Option String := Option.none
  ports : Option (OneOrMany IntOrStr) := Option.none
deriving Repr, DecidableEq

/-- A `google_compute_firewall` resource body. -/
structure GcpFirewallConfig where
  name : Option String := Option.none
  description : Option String := Option.none
  direction : Option String := Option.none
  source_ranges : Option (OneOrMany String) := Option.none
  destination_ranges : Option (OneOrMany String) := Option.none
  allow : Option (OneOrMany GcpAllowBlock) := Option.none
deriving Repr, DecidableEq

/-- GCP protocol normalisation (lines 542-544): `"all"` maps to `"-1"`. -/
def gcpProtocol (p : Option String) : String :=
  let p0 := p.getD "all"
  if p0 == "all" then "-1" else p0

/-- The port specs iterated for one allow block (line 551):
`ports if ports else [None]`. -/
def gcpSpecs (ports : Option (OneOrMany IntOrStr)) : List (Option IntOrStr) :=
  let ps := optListField ports
  if ps.isEmpty then [Option.none] else ps.map some

/-- GCP port-spec parsing (lines 552-559): `None` maps to `(0, 65535)`; a
spec whose string form contains `-` is split and converted with `int(...)`
(raising on non-numeric parts); otherwise `int(port_spec)` is applied
unguarded (raising on a non-numeric string). -/
def gcpPortPair : Option IntOrStr → Except String (Int × Int)
  | Option.none => .ok (0, 65535)
  | some v =>
    if containsDash v.pyStr then
      let parts := pySplitDash v.pyStr
      match pyInt? (parts.getD 0 ""), pyInt? (parts.getD 1 "") with
      | some a, some b => .ok (a, b)
      | _, _ => .error "ValueError"
    else
      match v with
      | .int n => .ok (n, n)
      | .str s =>
        match pyInt? s with
        | some n => .ok (n, n)
        | Option.none => .error "ValueError"

/-- One canonical rule per port spec (lines 551-593), with the firewall-level
description, the per-allow-block protocol and the shared CIDR set. -/
def gcpRuleOfSpec (descr : Option String) (protocol : String)
    (cidr_blocks : List String) (spec : Option IntOrStr) :
    Except String NetworkRule := do
  let (f, t) ← gcpPortPair spec
  .ok
    { description := descr
      from_port := some f
      to_port := some t
      protocol := protocol
      cidr_blocks := cidr_blocks
      is_unrestricted :=
        is_unrestricted_rule cidr_blocks [] (some f) (some t) protocol }

/-- The CIDR set shared by all rules of one GCP firewall resource:
`source_ranges` for ingress, `destination_ranges` for egress (lines 522-561). -/
def gcpCidr (config : GcpFirewallConfig) : List String :=
  if pyUpper (config.direction.getD "INGRESS") == "INGRESS" then
    optListField config.source_ranges
  else optListField config.destination_ranges

/-- The canonical rules produced from one GCP allow block: one per port spec
(lines 538-559). -/
def gcpBlockRules (descr : Option String) (cidr_blocks : List String)
    (blk : GcpAllowBlock) : Except String (List NetworkRule) :=
  exMap (gcpRuleOfSpec descr (gcpProtocol blk.protocol) cidr_blocks)
    (gcpSpecs blk.ports)

/-- `_parse_gcp_firewall` (lines 505-606). -/
def _parse_gcp_firewall (name : String) (config : GcpFirewallConfig)
    (file_path : String) : Except String SecurityGroupInfo := do
  let direction := pyUpper (config.direction.getD "INGRESS")
  let cidr_blocks := gcpCidr config
  let ruleLists ← exMap (gcpBlockRules config.description cidr_blocks)
    (optListField config.allow)
  let rules := ruleLists.flatten
  let ingress_rules := if direction == "INGRESS" then rules else []
  let egress_rules := if direction == "INGRESS" then [] else rules
  let sensitive_ports_exposed :=
    if direction == "INGRESS" then (rules.map ruleExposures).flatten else []
  .ok
    { resource_address := "google_compute_firewall." ++ name
      name := config.name
      source_file := file_path
      ingress_rules := ingress_rules
      egress_rules := egress_rules
      has_explicit_ingress := !ingress_rules.isEmpty
      has_explicit_egress := !egress_rules.isEmpty
      has_unrestricted_ingress := ingress_rules.any (fun r => r.is_unrestricted)
      has_unrestricted_egress := egress_rules.any (fun r => r.is_unrestricted)
      sensitive_ports_exposed := sensitive_ports_exposed }

/-! ## Other resource configurations (network_inventory.py lines 609-929) -/

/-- An `aws_subnet` resource body. -/
structure AwsSubnetConfig where
  vpc_id : Option String := Option.none
  cidr_block : Option String := Option.none
  map_public_ip_on_launch : Option BoolOrStr := Option.none
  availability_zone : Option String := Option.none
deriving Repr, DecidableEq

/-- One `route` block of an `aws_route_table`. -/
structure RouteConfig where
  cidr_block : Option String := Option.none
  destination_cidr_block : Option String := Option.none
  gateway_id : Option String := Option.none
  nat_gateway_id : Option String := Option.none
  vpc_peering_connection_id : Option String := Option.none
  transit_gateway_id : Option String := Option.none
  network_interface_id : Option String := Option.none
deriving Repr, DecidableEq

/-- An `aws_route_table` resource body. -/
structure AwsRouteTableConfig where
  vpc_id : Option String := Option.none
  route : Option (OneOrMany RouteConfig) := Option.none
deriving Repr, DecidableEq

/-- An `aws_lb` / `aws_alb` resource body. -/
structure AwsLbConfig where
  internal : Option BoolOrStr := Option.none
  load_balancer_type : Option String := Option.none
  security_groups : Option (OneOrMany String) := Option.none
  subnets : Option (OneOrMany String) := Option.none
deriving Repr, DecidableEq

/-- Projection of a parse result used by concrete witnesses: the parsed
security group, or a dummy on error. -/
def parsedOrDefault (e : Except String SecurityGroupInfo) : SecurityGroupInfo :=
  match e with
  | .ok sg => sg
  | .error _ => { resource_address := "", source_file := "" }

/-- Projection of an Azure per-rule contribution used by concrete witnesses. -/
def contribOrDefault
    (e : Except String (List NetworkRule × List NetworkRule × List ExposureRecord)) :
    List NetworkRule × List NetworkRule × List ExposureRecord :=
  match e with
  | .ok v => v
  | .error _ => ([], [], [])

/-! ## `extract_security_groups` (network_inventory.py lines 224-275) -/

/-- One element of a parsed file's `resource` list: a mapping from resource
type to named resource bodies.  Only the keys the source reads are kept. -/
structure ResourceBlock where
  aws_security_group : List (String × AwsSgConfig) := []
  azurerm_network_security_group : List (String × AzureNsgConfig) := []
  google_compute_firewall : List (String × GcpFirewallConfig) := []
  aws_vpc : List (String × Option String) := []
  azurerm_virtual_network : List (String × List String) := []
  google_compute_network : List String := []
  aws_subnet : List (String × AwsSubnetConfig) := []
  aws_route_table : List (String × AwsRouteTableConfig) := []
  aws_internet_gateway : List (String × Option String) := []
  aws_nat_gateway : List (String × Option String) := []
  aws_lb : List (String × AwsLbConfig) := []
  aws_alb : List (String × AwsLbConfig) := []
deriving Repr, DecidableEq

/-- `extract_security_groups`: AWS, then Azure, then GCP resources of each
resource block, in source order. -/
def extract_security_groups (resource_blocks : List ResourceBlock)
    (file_path : String) : Except String (List SecurityGroupInfo) := do
  let lists ← exMap
    (fun rb => do
      let aws ← exMap
        (fun nc => _parse_security_group nc.1 nc.2 file_path "aws_security_group")
        rb.aws_security_group
      let az ← exMap (fun nc => _parse_azure_nsg nc.1 nc.2 file_path)
        rb.azurerm_network_security_group
      let gcp ← exMap (fun nc => _parse_gcp_firewall nc.1 nc.2 file_path)
        rb.google_compute_firewall
      .ok (aws ++ az ++ gcp))
    resource_blocks
  .ok lists.flatten

/-! ## Inventory records and remaining extractors
(schemas_network.py; network_inventory.py lines 609-1008) -/

/-- `VPCInfo`. -/
structure VPCInfo where
  resource_address : String
  cidr_block : Option String := Option.none
  source_file : String
  source_line : Option Int := Option.none
deriving Repr, DecidableEq

/-- `SubnetInfo`. -/
structure SubnetInfo where
  resource_address : String
  vpc_ref : Option String := Option.none
  cidr_block : Option String := Option.none
  is_public : Bool := false
  availability_zone : Option String := Option.none
  source_file : String
  source_line : Option Int := Option.none
deriving Repr, DecidableEq

/-- `RouteInfo`. -/
structure RouteInfo where
  destination : String
  target_type : String
  target_ref : Option String := Option.none
deriving Repr, DecidableEq

/-- `RouteTableInfo`. -/
structure RouteTableInfo where
  resource_address : String
  vpc_ref : Option String := Option.none
  routes : List RouteInfo := []
  source_file : String
  source_line : Option Int := Option.none
deriving Repr, DecidableEq

/-- `InternetGatewayInfo`. -/
structure InternetGatewayInfo where
  resource_address : String
  vpc_ref : Option String := Option.none
  source_file : String
  source_line : Option Int := Option.none
deriving Repr, DecidableEq

/-- `NATGatewayInfo`. -/
structure NATGatewayInfo where
  resource_address : String
  subnet_ref : Option String := Option.none
  source_file : String
  source_line : Option Int := Option.none
deriving Repr, DecidableEq

/-- `LoadBalancerInfo`.  The source's `type` field is embedded as `lb_type`. -/
structure LoadBalancerInfo where
  resource_address : String
  lb_type : String := "application"
  is_internal : Bool := false
  security_group_refs : List String := []
  subnet_refs : List String := []
  source_file : String
  source_line : Option Int := Option.none
deriving Repr, DecidableEq

/-- Bool coercion for `map_public_ip_on_launch` / `internal`
(`if isinstance(x, str): x = x.lower() == "true"`, default `False`). -/
def coerceBoolField : Option BoolOrStr → Bool
  | Option.none => false
  | some (.bool b) => b
  | some (.str s) => pyLower s == "true"

/-- `extract_vpcs` (lines 609-667): AWS VPCs, then Azure virtual networks
(CIDR taken as the head of `address_space`), then GCP networks (no CIDR). -/
def extract_vpcs (resource_blocks : List ResourceBlock)
    (file_path : String) : List VPCInfo :=
  (resource_blocks.map (fun rb =>
    rb.aws_vpc.map (fun nc =>
      { resource_address := "aws_vpc." ++ nc.1, cidr_block := nc.2,
        source_file := file_path })
    ++ rb.azurerm_virtual_network.map (fun nc =>
      { resource_address := "azurerm_virtual_network." ++ nc.1,
        cidr_block := nc.2.head?, source_file := file_path })
    ++ rb.google_compute_network.map (fun n =>
      { resource_address := "google_compute_network." ++ n,
        cidr_block := Option.none, source_file := file_path }))).flatten

/-- `extract_subnets` (lines 670-708). -/
def extract_subnets (resource_blocks : List ResourceBlock)
    (file_path : String) : List SubnetInfo :=
  (resource_blocks.map (fun rb =>
    rb.aws_subnet.map (fun nc =>
      { resource_address := "aws_subnet." ++ nc.1
        vpc_ref := nc.2.vpc_id
        cidr_block := nc.2.cidr_block
        is_public := coerceBoolField nc.2.map_public_ip_on_launch
        availability_zone := nc.2.availability_zone
        source_file := file_path }))).flatten

/-- Route-target classification (lines 751-768): the first truthy id field
determines the target type, defaulting to `"unknown"`. -/
def routeTarget (route : RouteConfig) : String × Option String :=
  if truthyOpt route.gateway_id then ("internet_gateway", route.gateway_id)
  else if truthyOpt route.nat_gateway_id then ("nat_gateway", route.nat_gateway_id)
  else if truthyOpt route.vpc_peering_connection_id then
    ("vpc_peering", route.vpc_peering_connection_id)
  else if truthyOpt route.transit_gateway_id then
    ("transit_gateway", route.transit_gateway_id)
  else if truthyOpt route.network_interface_id then
    ("network_interface", route.network_interface_id)
  else ("unknown", Option.none)

/-- Route extraction for one route block (lines 744-777): the destination is
`cidr_block` falling back to `destination_cidr_block`, and a route is kept
only when the destination is truthy. -/
def parseRoute (route : RouteConfig) : List RouteInfo :=
  let destination := route.cidr_block <|> route.destination_cidr_block
  if truthyOpt destination then
    [{ destination := destination.getD ""
       target_type := (routeTarget route).1
       target_ref := (routeTarget route).2 }]
  else []

/-- `extract_route_tables` (lines 711-788). -/
def extract_route_tables (resource_blocks : List ResourceBlock)
    (file_path : String) : List RouteTableInfo :=
  (resource_blocks.map (fun rb =>
    rb.aws_route_table.map (fun nc =>
      { resource_address := "aws_route_table." ++ nc.1
        vpc_ref := nc.2.vpc_id
        routes := ((optListField nc.2.route).map parseRoute).flatten
        source_file := file_path }))).flatten

/-- `extract_internet_gateways` (lines 791-822). -/
def extract_internet_gateways (resource_blocks : List ResourceBlock)
    (file_path : String) : List InternetGatewayInfo :=
  (resource_blocks.map (fun rb =>
    rb.aws_internet_gateway.map (fun nc =>
      { resource_address := "aws_internet_gateway." ++ nc.1,
        vpc_ref := nc.2, source_file := file_path }))).flatten

/-- `extract_nat_gateways` (lines 825-856). -/
def extract_nat_gateways (resource_blocks : List ResourceBlock)
    (file_path : String) : List NATGatewayInfo :=
  (resource_blocks.map (fun rb =>
    rb.aws_nat_gateway.map (fun nc =>
      { resource_address := "aws_nat_gateway." ++ nc.1,
        subnet_ref := nc.2, source_file := file_path }))).flatten

/-- `extract_load_balancers` (lines 859-929): `aws_lb` resources (with
`load_balancer_type`, default `"application"`), then legacy `aws_alb`
resources (type fixed to `"application"`, no subnet refs read). -/
def extract_load_balancers (resource_blocks : List ResourceBlock)
    (file_path : String) : List LoadBalancerInfo :=
  (resource_blocks.map (fun rb =>
    rb.aws_lb.map (fun nc =>
      { resource_address := "aws_lb." ++ nc.1
        lb_type := nc.2.load_balancer_type.getD "application"
        is_internal := coerceBoolField nc.2.internal
        security_group_refs := optListField nc.2.security_groups
        subnet_refs := optListField nc.2.subnets
        source_file := file_path })
    ++ rb.aws_alb.map (fun nc =>
      { resource_address := "aws_alb." ++ nc.1
        lb_type := "application"
        is_internal := coerceBoolField nc.2.internal
        security_group_refs := optListField nc.2.security_groups
        subnet_refs := []
        source_file := file_path }))).flatten

/-! ## `extract_network_inventory` (network_inventory.py lines 932-1008) -/

/-- `NetworkInventory` (schemas_network.py). -/
structure NetworkInventory where
  schema_version : String := "1.0"
  extracted_at : String
  source_files : List String := []
  security_groups : List SecurityGroupInfo := []
  vpcs : List VPCInfo := []
  subnets : List SubnetInfo := []
  route_tables : List RouteTableInfo := []
  internet_gateways : List InternetGatewayInfo := []
  nat_gateways : List NATGatewayInfo := []
  load_balancers : List LoadBalancerInfo := []
deriving Repr, DecidableEq

/-- One file encountered by the directory walk, in walk order: its base name,
its path relative to the scan root, and the result of `parse_tf_file`
(`none` models a file the HCL parser failed on). -/
structure TfFile where
  filename : String
  rel_path : String
  parsed : Option (List ResourceBlock)
deriving Repr, DecidableEq

/-- The mutable accumulators of `extract_network_inventory`. -/
structure InvAcc where
  source_files : List String := []
  security_groups : List SecurityGroupInfo := []
  vpcs : List VPCInfo := []
  subnets : List SubnetInfo := []
  route_tables : List RouteTableInfo := []
  internet_gateways : List InternetGatewayInfo := []
  nat_gateways : List NATGatewayInfo := []
  load_balancers : List LoadBalancerInfo := []
deriving Repr, DecidableEq

/-- The per-file body of the walk loop (lines 974-996): files not ending in
`.tf` are skipped; a `.tf` file's relative path is appended to `source_files`
before parsing; a file whose parse failed contributes nothing further. -/
def processFile (acc : InvAcc) (f : TfFile) : Except String InvAcc :=
  if !pyEndsWith f.filename ".tf" then .ok acc
  else
    let acc1 := { acc with source_files := acc.source_files ++ [f.rel_path] }
    match f.parsed with
    | Option.none => .ok acc1
    | some parsed => do
      let sgs ← extract_security_groups parsed f.rel_path
      .ok
        { acc1 with
          security_groups := acc1.security_groups ++ sgs
          vpcs := acc1.vpcs ++ extract_vpcs parsed f.rel_path
          subnets := acc1.subnets ++ extract_subnets parsed f.rel_path
          route_tables := acc1.route_tables ++ extract_route_tables parsed f.rel_path
          internet_gateways :=
            acc1.internet_gateways ++ extract_internet_gateways parsed f.rel_path
          nat_gateways := acc1.nat_gateways ++ extract_nat_gateways parsed f.rel_path
          load_balancers :=
            acc1.load_balancers ++ extract_load_balancers parsed f.rel_path }

/-- The walk loop over all encountered files, in walk order. -/
def extractLoop (acc : InvAcc) : List TfFile → Except String InvAcc
  | [] => .ok acc
  | f :: fs => do
    let acc1 ← processFile acc f
    extractLoop acc1 fs

/-- Lexicographic comparison of char lists by code point, as Python compares
strings. -/
def charListLe : List Char → List Char → Bool
  | [], _ => true
  | _ :: _, [] => false
  | a :: as, b :: bs =>
    if a < b then true
    else if b < a then false
    else charListLe as bs

/-- Python string `<=` (lexicographic by code point). -/
def pyStrLe (a b : String) : Bool := charListLe a.data b.data

/-- Ordered insertion w.r.t. `pyStrLe`. -/
def insertLe (x : String) : List String → List String
  | [] => [x]
  | y :: ys => if pyStrLe x y then x :: y :: ys else y :: insertLe x ys

/-- Python `sorted` on a list of strings.  Since the comparison is a total
order on strings and equal strings are identical, any correct sort yields
this result; insertion sort is used as the executable model. -/
def pySorted : List String → List String
  | [] => []
  | x :: xs => insertLe x (pySorted xs)

/-- `extract_network_inventory` (lines 932-1008), abstracted over the walk
result (the ordered list of encountered files) and the run timestamp.  Only
`source_files` is sorted at the end (line 1000); all other lists keep their
accumulation order. -/
def extract_network_inventory (extracted_at : String) (files : List TfFile) :
    Except String NetworkInventory := do
  let acc ← extractLoop {} files
  .ok
    { extracted_at := extracted_at
      source_files := pySorted acc.source_files
      security_groups := acc.security_groups
      vpcs := acc.vpcs
      subnets := acc.subnets
      route_tables := acc.route_tables
      internet_gateways := acc.internet_gateways
      nat_gateways := acc.nat_gateways
      load_balancers := acc.load_balancers }

/-- Projection of an inventory-extraction result used by concrete witnesses. -/
def parsedInvOrDefault (e : Except String NetworkInventory) : NetworkInventory :=
  match e with
  | .ok inv => inv
  | .error _ => { extracted_at := "" }

/-- A one-file walk declaring two AWS security groups named `z` then `a`. -/
def cexFiles : List TfFile :=
  [{ filename := "main.tf", rel_path := "main.tf",
     parsed := some [{ aws_security_group := [("z", {}), ("a", {})] }] }]

/-! ## CNA-01 evaluator (src/action/src/ksi/cna/cna01/evaluator.py) -/

/-- Structured `details` payload of a finding. -/
inductive FindingDetails where
  | exposure (rec : ExposureRecord)
  | egressDetail (cidr_blocks : List String) (protocol : String)
      (from_port to_port : Option Int)
  | triggerDetail (trigger_event : String)
deriving Repr, DecidableEq

/-- `CNA01Finding` (schemas_network.py). -/
structure CNA01Finding where
  resource : String
  issue : String
  source_file : String
  source_line : Option Int := Option.none
  severity : String := "high"
  details : Option FindingDetails := Option.none
deriving Repr, DecidableEq

/-- `CNA01CriterionResult` (schemas_network.py). -/
structure CNA01CriterionResult where
  id : String
  name : String
  description : String
  requirement : String := "required"
  status : String
  findings : List CNA01Finding := []
deriving Repr, DecidableEq

/-- `CNA01Summary` (schemas_network.py). -/
structure CNA01Summary where
  status : String
  passed_criteria : Nat
  failed_criteria : Nat
  total_criteria : Nat
  security_groups_evaluated : Nat
  security_groups_compliant : Nat
  security_groups_non_compliant : Nat
deriving Repr, DecidableEq

/-- One entry of `CNA01_CRITERIA_DEFINITIONS` (constants_cna.py lines 44-77). -/
structure CriterionDef where
  id : String
  name : String
  description : String
  requirement : String
  pass_reason : String
  fail_reason : String
deriving Repr, DecidableEq

/-- `CNA01_CRITERIA_DEFINITIONS`, in source (insertion) order. -/
def CNA01_CRITERIA_DEFINITIONS : List (String × CriterionDef) :=
  [("CNA01-A",
    { id := "CNA01-A", name := "Ingress Restrictions"
      description := "No unrestricted inbound access on sensitive ports (SSH, RDP, database ports, etc.)"
      requirement := "required"
      pass_reason := "No sensitive ports are exposed to unrestricted internet access (0.0.0.0/0)."
      fail_reason := "One or more sensitive ports are exposed to unrestricted internet access (0.0.0.0/0)." }),
   ("CNA01-B",
    { id := "CNA01-B", name := "Explicit Ingress Rules"
      description := "All security groups have explicitly defined ingress rules."
      requirement := "required"
      pass_reason := "All security groups have at least one explicitly defined ingress rule."
      fail_reason := "One or more security groups have no ingress rules defined." }),
   ("CNA01-C",
    { id := "CNA01-C", name := "Egress Restrictions"
      description := "Outbound traffic is explicitly limited (no unrestricted egress to 0.0.0.0/0 on all ports)."
      requirement := "required"
      pass_reason := "All security groups have restricted egress (port-limited, CIDR-limited, or SG-referenced)."
      fail_reason := "One or more security groups have unrestricted egress (0.0.0.0/0 on all ports)." }),
   ("CNA01-D",
    { id := "CNA01-D", name := "Persistent Evaluation"
      description := "Evaluation is triggered by scheduled automation."
      requirement := "required"
      pass_reason := "Workflow triggered by scheduled event, confirming persistent evaluation cycle."
      fail_reason := "Workflow not triggered by schedule. Persistent evaluation cycle not demonstrated." })]

/-- Lookup of a criterion definition (`CNA01_CRITERIA_DEFINITIONS[key]`). -/
def criterionDef (key : String) : CriterionDef :=
  match (CNA01_CRITERIA_DEFINITIONS.filter (fun kv => kv.1 == key)).head? with
  | some kv => kv.2
  | Option.none =>
    { id := key, name := "", description := "", requirement := "",
      pass_reason := "", fail_reason := "" }

/-- The `"PASS" if not findings else "FAIL"` status computation. -/
def statusOfFindings (findings : List CNA01Finding) : String :=
  if findings.isEmpty then "PASS" else "FAIL"

/-- `evaluate_cna01_a` (evaluator.py lines 17-56): one high-severity finding
per sensitive-port exposure record of each group. -/
def evaluate_cna01_a (inventory : NetworkInventory) : CNA01CriterionResult :=
  let cd := criterionDef "CNA01-A"
  let findings := (inventory.security_groups.map (fun sg =>
    sg.sensitive_ports_exposed.map (fun e =>
      { resource := sg.resource_address
        issue := "Sensitive port " ++ toString e.port ++ " (" ++ e.service
          ++ ") exposed to " ++ pyReprStrList e.cidr
        source_file := sg.source_file
        source_line := sg.source_line
        severity := "high"
        details := some (.exposure e) }))).flatten
  { id := "CNA01-A", name := cd.name, description := cd.description,
    requirement := cd.requirement, status := statusOfFindings findings,
    findings := findings }

/-- `evaluate_cna01_b` (evaluator.py lines 59-95): one finding per group
without explicit ingress rules. -/
def evaluate_cna01_b (inventory : NetworkInventory) : CNA01CriterionResult :=
  let cd := criterionDef "CNA01-B"
  let findings := (inventory.security_groups.map (fun sg =>
    if !sg.has_explicit_ingress then
      [{ resource := sg.resource_address
         issue := "No ingress rules defined. Security groups must have explicitly configured ingress restrictions."
         source_file := sg.source_file
         source_line := sg.source_line
         severity := "high" : CNA01Finding }]
    else [])).flatten
  { id := "CNA01-B", name := cd.name, description := cd.description,
    requirement := cd.requirement, status := statusOfFindings findings,
    findings := findings }

/-- The per-group findings of `evaluate_cna01_c` (evaluator.py lines 112-149):
if the group has unrestricted egress, one finding per unrestricted egress
rule; otherwise, if it has no explicit egress rules, one default-allow-all
finding; otherwise none. -/
def cna01cGroupFindings (sg : SecurityGroupInfo) : List CNA01Finding :=
  if sg.has_unrestricted_egress then
    (sg.egress_rules.filter (fun r => r.is_unrestricted)).map (fun egress =>
      let unrestricted_cidrs := (egress.cidr_blocks ++ egress.ipv6_cidr_blocks).filter
        (fun c => c == "0.0.0.0/0" || c == "::/0")
      { resource := sg.resource_address
        issue := "Unrestricted egress: " ++ pyReprStrList unrestricted_cidrs
          ++ " on protocol " ++ egress.protocol ++ " ports "
          ++ pyStrOptInt egress.from_port ++ "-" ++ pyStrOptInt egress.to_port
        source_file := sg.source_file
        source_line := sg.source_line
        severity := "high"
        details := some (.egressDetail unrestricted_cidrs egress.protocol
          egress.from_port egress.to_port) })
  else if !sg.has_explicit_egress then
    [{ resource := sg.resource_address
       issue := "No egress rules defined. AWS defaults to allow all egress, which violates the requirement to limit outbound traffic."
       source_file := sg.source_file
       source_line := sg.source_line
       severity := "high" }]
  else []

/-- `evaluate_cna01_c` (evaluator.py lines 98-160). -/
def evaluate_cna01_c (inventory : NetworkInventory) : CNA01CriterionResult :=
  let cd := criterionDef "CNA01-C"
  let findings := (inventory.security_groups.map cna01cGroupFindings).flatten
  { id := "CNA01-C", name := cd.name, description := cd.description,
    requirement := cd.requirement, status := statusOfFindings findings,
    findings := findings }

/-- `evaluate_cna01_d` (evaluator.py lines 163-198). -/
def evaluate_cna01_d (trigger_event : String) : CNA01CriterionResult :=
  let cd := criterionDef "CNA01-D"
  let findings : List CNA01Finding :=
    if trigger_event != "schedule" then
      [{ resource := "workflow"
         issue := "Workflow triggered by \x27" ++ trigger_event
           ++ "\x27 instead of \x27schedule\x27. Persistent evaluation requires scheduled automation."
         source_file := ".github/workflows/fedramp-ksi-evidence.yml"
         severity := "medium"
         details := some (.triggerDetail trigger_event) }]
    else []
  { id := "CNA01-D", name := cd.name, description := cd.description,
    requirement := cd.requirement, status := statusOfFindings findings,
    findings := findings }

/-- The synthetic finding of `_build_error_result` (evaluator.py lines 278-284). -/
def errorFinding : CNA01Finding :=
  { resource := "network_inventory"
    issue := "No security groups detected in Terraform configuration. Cannot evaluate network traffic restrictions."
    source_file := ""
    severity := "high" }

/-- `_build_error_result` (evaluator.py lines 272-312): an ERROR criterion
result for every criterion definition except `CNA01-D`, each carrying exactly
the synthetic finding, plus an ERROR summary with zero groups. -/
def _build_error_result :
    List (String × CNA01CriterionResult) × CNA01Summary :=
  let criteria := (CNA01_CRITERIA_DEFINITIONS.filter
      (fun kv => kv.1 != "CNA01-D")).map (fun kv =>
    (kv.1,
     { id := kv.1, name := kv.2.name, description := kv.2.description,
       requirement := kv.2.requirement, status := "ERROR",
       findings := [errorFinding] : CNA01CriterionResult }))
  (criteria,
   { status := "ERROR", passed_criteria := 0, failed_criteria := 0,
     total_criteria := criteria.length, security_groups_evaluated := 0,
     security_groups_compliant := 0, security_groups_non_compliant := 0 })

/-- The per-group compliance predicate of the summary roll-up
(evaluator.py lines 237-242). -/
def sgCompliant (sg : SecurityGroupInfo) : Bool :=
  sg.sensitive_ports_exposed.isEmpty && sg.has_explicit_ingress
    && sg.has_explicit_egress && !sg.has_unrestricted_egress

/-- `evaluate_cna01` (evaluator.py lines 201-269). -/
def evaluate_cna01 (inventory : NetworkInventory) (trigger_event : String) :
    List (String × CNA01CriterionResult) × CNA01Summary :=
  if inventory.security_groups.isEmpty then _build_error_result
  else
    let criteria :=
      [("CNA01-A", evaluate_cna01_a inventory),
       ("CNA01-B", evaluate_cna01_b inventory),
       ("CNA01-C", evaluate_cna01_c inventory),
       ("CNA01-D", evaluate_cna01_d trigger_event)]
    let passed := (criteria.filter (fun kv => kv.2.status == "PASS")).length
    let failed := (criteria.filter (fun kv => kv.2.status == "FAIL")).length
    let compliant := (inventory.security_groups.filter sgCompliant).length
    let non_compliant :=
      (inventory.security_groups.filter (fun sg => !sgCompliant sg)).length
    let overall :=
      if criteria.any (fun kv => kv.2.status == "ERROR") then "ERROR"
      else if criteria.any (fun kv => kv.2.status == "FAIL") then "FAIL"
      else "PASS"
    (criteria,
     { status := overall, passed_criteria := passed, failed_criteria := failed,
       total_criteria := criteria.length,
       security_groups_evaluated := inventory.security_groups.length,
       security_groups_compliant := compliant,
       security_groups_non_compliant := non_compliant })

/-! ## Spec-side characterizations and helper lemmas -/

/-- Spec wording: "the rule's IPv4 or IPv6 CIDR set intersects
`{0.0.0.0/0, ::/0}`". -/
def OpenCidrSpec (cidr_blocks ipv6_cidr_blocks : List String) : Prop :=
  (∃ c ∈ cidr_blocks, c = "0.0.0.0/0" ∨ c = "::/0")
    ∨ (∃ c ∈ ipv6_cidr_blocks, c = "0.0.0.0/0" ∨ c = "::/0")

instance (c4 c6 : List String) : Decidable (OpenCidrSpec c4 c6) := by
  unfold OpenCidrSpec; infer_instance

/-- Spec wording: "the protocol token is a wildcard (`-1` or `all`,
case-insensitive)". -/
def WildcardSpec (protocol : String) : Prop :=
  pyLower protocol = "-1" ∨ pyLower protocol = "all"

instance (p : String) : Decidable (WildcardSpec p) := by
  unfold WildcardSpec; infer_instance

lemma contains_unrestricted_iff (c : String) :
    UNRESTRICTED_CIDRS.contains c = true ↔ (c = "0.0.0.0/0" ∨ c = "::/0") := by
  simp [UNRESTRICTED_CIDRS, List.elem_iff]

lemma hasUnrestrictedCidr_iff (c4 c6 : List String) :
    hasUnrestrictedCidr c4 c6 = true ↔ OpenCidrSpec c4 c6 := by
  simp only [hasUnrestrictedCidr, Bool.or_eq_true, List.any_eq_true,
    OpenCidrSpec, contains_unrestricted_iff]

lemma wildcard_iff (p : String) :
    ALL_PROTOCOLS.contains (pyLower p) = true ↔ WildcardSpec p := by
  simp [ALL_PROTOCOLS, List.elem_iff, WildcardSpec]

/-! ## Claim C1 -/

/-- C1: `is_unrestricted_rule` returns `true` iff (a) the IPv4 or IPv6 CIDR
set intersects `{0.0.0.0/0, ::/0}`, and (b) the protocol token is `-1` or
`all` case-insensitively (ports irrelevant), or both ports are present and
form a maximal range (`from = 0 ∧ to = 65535`, or `from = -1`, or `to = -1`);
in particular a rule with an open CIDR, protocol `tcp` and ports 443-443 is
not unrestricted. -/
theorem is_unrestricted_rule_characterization
    (cidr_blocks ipv6_cidr_blocks : List String)
    (from_port to_port : Option Int) (protocol : String) :
    (is_unrestricted_rule cidr_blocks ipv6_cidr_blocks from_port to_port protocol
        = true ↔
      (OpenCidrSpec cidr_blocks ipv6_cidr_blocks ∧
        (WildcardSpec protocol ∨
          (∃ f t, from_port = some f ∧ to_port = some t ∧
            ((f = 0 ∧ t = 65535) ∨ f = -1 ∨ t = -1)))))
    ∧ (OpenCidrSpec cidr_blocks ipv6_cidr_blocks →
        is_unrestricted_rule cidr_blocks ipv6_cidr_blocks
          (some 443) (some 443) "tcp" = false) := by
  constructor
  · unfold is_unrestricted_rule
    rw [← hasUnrestrictedCidr_iff, ← wildcard_iff]
    cases from_port <;> cases to_port <;>
      cases hC : hasUnrestrictedCidr cidr_blocks ipv6_cidr_blocks <;>
      cases hW : ALL_PROTOCOLS.contains (pyLower protocol) <;>
      simp [hC, hW]
  · intro hopen
    have hC := (hasUnrestrictedCidr_iff _ _).2 hopen
    have hW : ALL_PROTOCOLS.contains (pyLower "tcp") = false := by decide
    simp [is_unrestricted_rule, hC, hW]
    decide

/-- Witness for C1 at a concrete open-CIDR tcp/443 rule. -/
theorem is_unrestricted_rule_characterization_witness :
    is_unrestricted_rule ["0.0.0.0/0"] [] (some 443) (some 443) "tcp" = false :=
  (is_unrestricted_rule_characterization ["0.0.0.0/0"] []
    (some 443) (some 443) "tcp").2 (by decide)

/-! ## Claim C2 -/

/-- C2: `check_sensitive_port_exposure` returns `[]` when no CIDR is open;
with an open CIDR and a wildcard protocol it returns exactly one record per
entry of the 16-entry sensitive-port table; otherwise, with both port bounds
present, it reports a table entry iff `from_port ≤ port ≤ to_port`, and with
either bound absent it reports nothing. -/
theorem check_sensitive_port_exposure_characterization
    (cidr_blocks ipv6_cidr_blocks : List String)
    (from_port to_port : Option Int) (protocol : String) :
    (¬ OpenCidrSpec cidr_blocks ipv6_cidr_blocks →
      check_sensitive_port_exposure cidr_blocks ipv6_cidr_blocks
        from_port to_port protocol = [])
    ∧ (OpenCidrSpec cidr_blocks ipv6_cidr_blocks → WildcardSpec protocol →
      (check_sensitive_port_exposure cidr_blocks ipv6_cidr_blocks
        from_port to_port protocol).map (fun r => (r.port, r.service))
          = SENSITIVE_PORTS ∧
      (check_sensitive_port_exposure cidr_blocks ipv6_cidr_blocks
        from_port to_port protocol).length = 16)
    ∧ (OpenCidrSpec cidr_blocks ipv6_cidr_blocks → ¬ WildcardSpec protocol →
      ∀ f t, from_port = some f → to_port = some t →
      ∀ ps, ps ∈ SENSITIVE_PORTS →
        ((∃ r ∈ check_sensitive_port_exposure cidr_blocks ipv6_cidr_blocks
            from_port to_port protocol, r.port = ps.1) ↔ (f ≤ ps.1 ∧ ps.1 ≤ t)))
    ∧ (OpenCidrSpec cidr_blocks ipv6_cidr_blocks → ¬ WildcardSpec protocol →
      (from_port = Option.none ∨ to_port = Option.none) →
      check_sensitive_port_exposure cidr_blocks ipv6_cidr_blocks
        from_port to_port protocol = []) := by
  refine ⟨?_, ?_, ?_, ?_⟩
  · intro hno
    have hC : hasUnrestrictedCidr cidr_blocks ipv6_cidr_blocks = false := by
      rcases h : hasUnrestrictedCidr cidr_blocks ipv6_cidr_blocks with _ | _
      · rfl
      · exact absurd ((hasUnrestrictedCidr_iff _ _).1 h) hno
    simp [check_sensitive_port_exposure, hC]
  · intro hopen hw
    have hC := (hasUnrestrictedCidr_iff _ _).2 hopen
    have hW := (wildcard_iff protocol).2 hw
    have hE : check_sensitive_port_exposure cidr_blocks ipv6_cidr_blocks
        from_port to_port protocol
        = SENSITIVE_PORTS.map
            (fun q => (⟨q.1, q.2, openCidrList cidr_blocks ipv6_cidr_blocks⟩
              : ExposureRecord)) := by
      simp only [check_sensitive_port_exposure, hC, hW]
      simp
    constructor
    · rw [hE, List.map_map]
      exact List.map_id SENSITIVE_PORTS
    · rw [hE, List.length_map]
      decide
  · intro hopen hw f t hf ht ps hmem
    have hC := (hasUnrestrictedCidr_iff _ _).2 hopen
    have hW : ALL_PROTOCOLS.contains (pyLower protocol) = false := by
      rcases h : ALL_PROTOCOLS.contains (pyLower protocol) with _ | _
      · rfl
      · exact absurd ((wildcard_iff _).1 h) hw
    subst hf ht
    have hE : check_sensitive_port_exposure cidr_blocks ipv6_cidr_blocks
        (some f) (some t) protocol
        = (SENSITIVE_PORTS.filter
            (fun q => decide (f ≤ q.1) && decide (q.1 ≤ t))).map
            (fun q => (⟨q.1, q.2, openCidrList cidr_blocks ipv6_cidr_blocks⟩
              : ExposureRecord)) := by
      simp only [check_sensitive_port_exposure, hC, hW]
      simp
    rw [hE]
    constructor
    · rintro ⟨r, hr, hport⟩
      rcases List.mem_map.1 hr with ⟨q, hq, rfl⟩
      rcases List.mem_filter.1 hq with ⟨hqm, hqb⟩
      rw [← hport]
      simpa using hqb
    · intro hb
      exact ⟨_, List.mem_map.2 ⟨ps, List.mem_filter.2
        ⟨hmem, by simpa using hb⟩, rfl⟩, rfl⟩
  · intro hopen hw hnone
    have hC := (hasUnrestrictedCidr_iff _ _).2 hopen
    have hW : ALL_PROTOCOLS.contains (pyLower protocol) = false := by
      rcases h : ALL_PROTOCOLS.contains (pyLower protocol) with _ | _
      · rfl
      · exact absurd ((wildcard_iff _).1 h) hw
    rcases hnone with h0 | h0
    · subst h0
      cases to_port <;> · simp only [check_sensitive_port_exposure, hC, hW]
                          simp
    · subst h0
      cases from_port <;> · simp only [check_sensitive_port_exposure, hC, hW]
                            simp

/-- Witness for C2: a private-CIDR rule reports nothing, and an open-CIDR
wildcard rule reports all 16 table entries. -/
theorem check_sensitive_port_exposure_characterization_witness :
    check_sensitive_port_exposure ["10.0.0.0/8"] [] (some 0) (some 65535) "tcp"
      = [] ∧
    (check_sensitive_port_exposure ["0.0.0.0/0"] [] Option.none Option.none
      "-1").length = 16 :=
  ⟨(check_sensitive_port_exposure_characterization ["10.0.0.0/8"] []
      (some 0) (some 65535) "tcp").1 (by decide),
   ((check_sensitive_port_exposure_characterization ["0.0.0.0/0"] []
      Option.none Option.none "-1").2.1 (by decide) (by decide)).2⟩

/-! ## Claim C5 -/

/-- C5: for every security group produced by any of the three provider
extractors, `has_explicit_ingress`/`has_explicit_egress` hold iff the
corresponding rule list is non-empty, and `has_unrestricted_ingress`/
`has_unrestricted_egress` are the boolean OR of `is_unrestricted` over the
corresponding rule list. -/
theorem extractor_flag_invariants :
    (∀ name config file_path resource_type sg,
      _parse_security_group name config file_path resource_type = .ok sg →
        ((sg.has_explicit_ingress = true ↔ sg.ingress_rules ≠ [])
          ∧ (sg.has_explicit_egress = true ↔ sg.egress_rules ≠ [])
          ∧ sg.has_unrestricted_ingress
              = sg.ingress_rules.any (fun r => r.is_unrestricted)
          ∧ sg.has_unrestricted_egress
              = sg.egress_rules.any (fun r => r.is_unrestricted)))
    ∧ (∀ name config file_path sg,
      _parse_azure_nsg name config file_path = .ok sg →
        ((sg.has_explicit_ingress = true ↔ sg.ingress_rules ≠ [])
          ∧ (sg.has_explicit_egress = true ↔ sg.egress_rules ≠ [])
          ∧ sg.has_unrestricted_ingress
              = sg.ingress_rules.any (fun r => r.is_unrestricted)
          ∧ sg.has_unrestricted_egress
              = sg.egress_rules.any (fun r => r.is_unrestricted)))
    ∧ (∀ name config file_path sg,
      _parse_gcp_firewall name config file_path = .ok sg →
        ((sg.has_explicit_ingress = true ↔ sg.ingress_rules ≠ [])
          ∧ (sg.has_explicit_egress = true ↔ sg.egress_rules ≠ [])
          ∧ sg.has_unrestricted_ingress
              = sg.ingress_rules.any (fun r => r.is_unrestricted)
          ∧ sg.has_unrestricted_egress
              = sg.egress_rules.any (fun r => r.is_unrestricted))) := by
  refine ⟨?_, ?_, ?_⟩
  · intro name config file_path resource_type sg h
    unfold _parse_security_group at h
    cases h1 : exMap parseAwsRule (optListField config.ingress) with
    | error e => rw [h1] at h; simp [Bind.bind, Except.bind] at h
    | ok irs =>
      rw [h1] at h
      cases h2 : exMap parseAwsRule (optListField config.egress) with
      | error e => rw [h2] at h; simp [Bind.bind, Except.bind] at h
      | ok ers =>
        rw [h2] at h
        simp only [Bind.bind, Except.bind, Except.ok.injEq] at h
        subst h
        simp [List.isEmpty_iff]
  · intro name config file_path sg h
    unfold _parse_azure_nsg at h
    cases h1 : azureProcessRules (optListField config.security_rule) with
    | error e => rw [h1] at h; simp [Bind.bind, Except.bind] at h
    | ok v =>
      rw [h1] at h
      simp only [Bind.bind, Except.bind, Except.ok.injEq] at h
      subst h
      simp [List.isEmpty_iff]
  · intro name config file_path sg h
    unfold _parse_gcp_firewall at h
    dsimp only at h
    cases h1 : exMap (gcpBlockRules config.description (gcpCidr config))
        (optListField config.allow) with
    | error e => rw [h1] at h; simp [Bind.bind, Except.bind] at h
    | ok rls =>
      rw [h1] at h
      simp only [Bind.bind, Except.bind, Except.ok.injEq] at h
      subst h
      cases hd : pyUpper (config.direction.getD "INGRESS") == "INGRESS" <;>
        simp [hd, List.isEmpty_iff]

/-- Witness for C5 at a concrete empty AWS security-group configuration. -/
theorem extractor_flag_invariants_witness :
    (parsedOrDefault
        (_parse_security_group "g" {} "main.tf" "aws_security_group")).has_unrestricted_ingress
      = (parsedOrDefault
          (_parse_security_group "g" {} "main.tf" "aws_security_group")).ingress_rules.any
          (fun r => r.is_unrestricted) :=
  (extractor_flag_invariants.1 "g" {} "main.tf" "aws_security_group"
    (parsedOrDefault
      (_parse_security_group "g" {} "main.tf" "aws_security_group"))
    (by rfl)).2.2.1

/-! ## Claim C6 -/

lemma statusOfFindings_eq_fail (findings : List CNA01Finding) :
    statusOfFindings findings = "FAIL" ↔ findings ≠ [] := by
  unfold statusOfFindings
  cases findings <;> simp

/-- C6: `evaluate_cna01_c` emits one finding per unrestricted egress rule for
each group flagged with unrestricted egress, and exactly one (no-egress)
finding for each group with zero egress rules; the two branches are mutually
exclusive per group (a group with the unrestricted flag has at least one
egress rule, given the extractor invariant on the derived flags), and the
criterion status is FAIL iff at least one finding exists. -/
theorem evaluate_cna01_c_characterization (inventory : NetworkInventory)
    (hinv : ∀ sg ∈ inventory.security_groups,
      sg.has_unrestricted_egress
          = sg.egress_rules.any (fun r => r.is_unrestricted)
        ∧ sg.has_explicit_egress = !sg.egress_rules.isEmpty) :
    ((evaluate_cna01_c inventory).findings
        = (inventory.security_groups.map cna01cGroupFindings).flatten)
    ∧ (∀ sg ∈ inventory.security_groups, sg.has_unrestricted_egress = true →
        (cna01cGroupFindings sg).length
          = (sg.egress_rules.filter (fun r => r.is_unrestricted)).length)
    ∧ (∀ sg ∈ inventory.security_groups, sg.egress_rules = [] →
        cna01cGroupFindings sg
          = [{ resource := sg.resource_address
               issue := "No egress rules defined. AWS defaults to allow all egress, which violates the requirement to limit outbound traffic."
               source_file := sg.source_file
               source_line := sg.source_line
               severity := "high" }])
    ∧ (∀ sg ∈ inventory.security_groups, sg.has_unrestricted_egress = true →
        sg.egress_rules ≠ [])
    ∧ ((evaluate_cna01_c inventory).status = "FAIL"
        ↔ (evaluate_cna01_c inventory).findings ≠ []) := by
  refine ⟨rfl, ?_, ?_, ?_, ?_⟩
  · intro sg hsg hflag
    simp [cna01cGroupFindings, hflag]
  · intro sg hsg hempty
    obtain ⟨h1, h2⟩ := hinv sg hsg
    rw [hempty] at h1 h2
    simp only [List.any_nil, List.isEmpty_nil, Bool.not_true] at h1 h2
    simp [cna01cGroupFindings, h1, h2]
  · intro sg hsg hflag hempty
    obtain ⟨h1, -⟩ := hinv sg hsg
    rw [hempty] at h1
    rw [hflag] at h1
    simp at h1
  · exact statusOfFindings_eq_fail _

/-- Witness for C6 at an inventory holding one security group with zero
egress rules. -/
theorem evaluate_cna01_c_characterization_witness :
    cna01cGroupFindings
        (parsedOrDefault
          (_parse_security_group "g" {} "main.tf" "aws_security_group"))
      = [{ resource := "aws_security_group.g"
           issue := "No egress rules defined. AWS defaults to allow all egress, which violates the requirement to limit outbound traffic."
           source_file := "main.tf"
           source_line := Option.none
           severity := "high" }] :=
  ((evaluate_cna01_c_characterization
      { extracted_at := "t0"
        security_groups := [parsedOrDefault
          (_parse_security_group "g" {} "main.tf" "aws_security_group")] }
      (by decide)).2.2.1
    (parsedOrDefault
      (_parse_security_group "g" {} "main.tf" "aws_security_group"))
    (by simp) (by rfl))

/-! ## Claim C3 -/

/-- C3: on an inventory with zero security groups, `evaluate_cna01` (for any
trigger event) returns exactly the criteria CNA01-A, CNA01-B and CNA01-C,
each with status ERROR and exactly one synthetic finding citing "No security
groups detected", with CNA01-D excluded, and an ERROR summary with zero
groups evaluated. -/
theorem evaluate_cna01_empty_inventory (inventory : NetworkInventory)
    (trigger_event : String) (h : inventory.security_groups = []) :
    ((evaluate_cna01 inventory trigger_event).1.map Prod.fst
        = ["CNA01-A", "CNA01-B", "CNA01-C"])
    ∧ (∀ kv ∈ (evaluate_cna01 inventory trigger_event).1,
        kv.2.status = "ERROR" ∧ kv.2.findings = [errorFinding])
    ∧ errorFinding.issue
        = "No security groups detected in Terraform configuration. Cannot evaluate network traffic restrictions."
    ∧ (evaluate_cna01 inventory trigger_event).2.status = "ERROR"
    ∧ (evaluate_cna01 inventory trigger_event).2.security_groups_evaluated
        = 0 := by
  have hiv : inventory.security_groups.isEmpty = true := by
    rw [h]
    rfl
  have he : evaluate_cna01 inventory trigger_event = _build_error_result := by
    unfold evaluate_cna01
    rw [hiv]
    rfl
  rw [he]
  have hall : ∀ kv ∈ _build_error_result.1,
      kv.2.status = "ERROR" ∧ kv.2.findings = [errorFinding] := by decide
  exact ⟨by decide, hall, rfl, by decide, by decide⟩

/-- Witness for C3 at a concrete empty inventory with trigger `push`. -/
theorem evaluate_cna01_empty_inventory_witness :
    ((evaluate_cna01 { extracted_at := "t0" } "push").1.map Prod.fst
        = ["CNA01-A", "CNA01-B", "CNA01-C"])
    ∧ ((evaluate_cna01 { extracted_at := "t0" } "push").2.status = "ERROR") :=
  have h := evaluate_cna01_empty_inventory { extracted_at := "t0" } "push" rfl
  ⟨h.1, h.2.2.2.1⟩

/-! ## Claim C4 -/

/-- C4: the claim says the extraction pipeline never raises on
malformed-but-well-typed input, but the code does: Python `int(...)` raises
`ValueError` on the unguarded range-split branches (Azure
`destination_port_range = "443-https"`, GCP port spec `"https"`) and on the
AWS port guard loophole (`"--5".lstrip("-").isdigit()` is true yet
`int("--5")` raises).  Each parser is evaluated here at such a failing
input and produces the modelled exception. -/
theorem parsers_raise_on_malformed_ports :
    _parse_azure_nsg "nsg"
        { security_rule := some (.many
            [{ direction := some "Inbound", access := some "Allow",
               destination_port_range := some (.str "443-https") }]) }
        "main.tf" = .error "ValueError"
    ∧ _parse_gcp_firewall "fw"
        { allow := some (.many
            [{ protocol := some "tcp", ports := some (.many [.str "https"]) }]) }
        "main.tf" = .error "ValueError"
    ∧ _parse_security_group "sg"
        { ingress := some (.many [{ from_port := some (.str "--5") }]) }
        "main.tf" "aws_security_group" = .error "ValueError" := by
  refine ⟨rfl, rfl, rfl⟩

/-! ## Shared inversion lemmas for the `Except`-monad loops -/

lemma exMap_nil {α β : Type} (f : α → Except String β) : exMap f [] = .ok [] := rfl

lemma exMap_cons_ok {α β : Type} (f : α → Except String β) (x : α) (xs : List α)
    (ys : List β) (h : exMap f (x :: xs) = .ok ys) :
    ∃ y ys2, f x = .ok y ∧ exMap f xs = .ok ys2 ∧ ys = y :: ys2 := by
  unfold exMap at h
  cases h1 : f x with
  | error e => rw [h1] at h; simp [Bind.bind, Except.bind] at h
  | ok y =>
    rw [h1] at h
    cases h2 : exMap f xs with
    | error e => rw [h2] at h; simp [Bind.bind, Except.bind] at h
    | ok ys2 =>
      rw [h2] at h
      simp only [Bind.bind, Except.bind, Except.ok.injEq] at h
      exact ⟨y, ys2, rfl, rfl, h.symm⟩

lemma exMap_ok_length {α β : Type} (f : α → Except String β) (xs : List α)
    (ys : List β) (h : exMap f xs = .ok ys) : ys.length = xs.length := by
  induction xs generalizing ys with
  | nil =>
    rw [exMap_nil] at h
    cases h
    rfl
  | cons x xs ih =>
    obtain ⟨y, ys2, -, h2, rfl⟩ := exMap_cons_ok f x xs ys h
    simp [ih ys2 h2]

lemma exMap_ok_mem {α β : Type} (f : α → Except String β) (xs : List α)
    (ys : List β) (h : exMap f xs = .ok ys) :
    ∀ y ∈ ys, ∃ x ∈ xs, f x = .ok y := by
  induction xs generalizing ys with
  | nil =>
    rw [exMap_nil] at h
    cases h
    simp
  | cons x xs ih =>
    obtain ⟨y, ys2, h1, h2, rfl⟩ := exMap_cons_ok f x xs ys h
    intro z hz
    rcases List.mem_cons.1 hz with rfl | hz2
    · exact ⟨x, List.mem_cons_self x xs, h1⟩
    · obtain ⟨x2, hx2, hfx2⟩ := ih ys2 h2 z hz2
      exact ⟨x2, List.mem_cons_of_mem x hx2, hfx2⟩

/-! ## Split lemmas for the port-range strings -/

lemma splitChar_not_mem (sep : Char) (xs : List Char) (hx : sep ∉ xs) :
    splitChar sep xs = [xs] := by
  induction xs with
  | nil => rfl
  | cons c cs ih =>
    have hc : (c == sep) = false := by
      simp only [beq_eq_false_iff_ne, ne_eq]
      rintro rfl
      exact hx (List.mem_cons_self c cs)
    have hcs : sep ∉ cs := fun hm => hx (List.mem_cons_of_mem c hm)
    simp [splitChar, hc, ih hcs]

lemma splitChar_append_sep (sep : Char) (xs ys : List Char) (hx : sep ∉ xs) :
    splitChar sep (xs ++ sep :: ys) = xs :: splitChar sep ys := by
  induction xs with
  | nil => simp [splitChar]
  | cons c cs ih =>
    have hc : (c == sep) = false := by
      simp only [beq_eq_false_iff_ne, ne_eq]
      rintro rfl
      exact hx (List.mem_cons_self c cs)
    have hcs : sep ∉ cs := fun hm => hx (List.mem_cons_of_mem c hm)
    rw [List.cons_append]
    simp [splitChar, hc, ih hcs]

lemma pySplitDash_pair (s1 s2 : String)
    (h1 : ¬ s1.data.contains '-') (h2 : ¬ s2.data.contains '-') :
    pySplitDash (s1 ++ "-" ++ s2) = [s1, s2] := by
  have hm1 : '-' ∉ s1.data := by simpa [List.elem_iff] using h1
  have hm2 : '-' ∉ s2.data := by simpa [List.elem_iff] using h2
  have hd : (s1 ++ "-" ++ s2).data = s1.data ++ '-' :: s2.data := by
    rw [String.data_append, String.data_append, List.append_assoc]
    rfl
  unfold pySplitDash
  rw [hd, splitChar_append_sep '-' s1.data s2.data hm1,
    splitChar_not_mem '-' s2.data hm2]
  rfl

lemma containsDash_pair (s1 s2 : String) :
    containsDash (s1 ++ "-" ++ s2) = true := by
  unfold containsDash
  rw [String.data_append, String.data_append, List.append_assoc]
  simp [List.elem_iff]

/-! ## Claim C7 -/

lemma gcpRuleOfSpec_ok (descr : Option String) (protocol : String)
    (cidr_blocks : List String) (spec : Option IntOrStr) (r : NetworkRule)
    (h : gcpRuleOfSpec descr protocol cidr_blocks spec = .ok r) :
    r.protocol = protocol ∧ r.cidr_blocks = cidr_blocks
      ∧ r.description = descr := by
  unfold gcpRuleOfSpec at h
  cases h1 : gcpPortPair spec with
  | error e => rw [h1] at h; simp [Bind.bind, Except.bind] at h
  | ok ft =>
    obtain ⟨f, t⟩ := ft
    rw [h1] at h
    simp only [Bind.bind, Except.bind, Except.ok.injEq] at h
    subst h
    exact ⟨rfl, rfl, rfl⟩

lemma gcp_rules_length (descr : Option String) (cidr_blocks : List String)
    (blocks : List GcpAllowBlock) (rls : List (List NetworkRule))
    (h : exMap (gcpBlockRules descr cidr_blocks) blocks = .ok rls) :
    rls.flatten.length
      = (blocks.map (fun blk => (gcpSpecs blk.ports).length)).sum := by
  induction blocks generalizing rls with
  | nil =>
    rw [exMap_nil] at h
    cases h
    rfl
  | cons blk blocks ih =>
    obtain ⟨rules, rls2, h1, h2, rfl⟩ := exMap_cons_ok _ blk blocks rls h
    unfold gcpBlockRules at h1
    have hlen := exMap_ok_length _ _ _ h1
    simp [ih rls2 h2, hlen]

/-- C7: every `google_compute_firewall` resource yields one canonical rule
per port spec per allow block, all rules sharing the CIDR set selected by
direction (`source_ranges` for INGRESS, the default when `direction` is
absent; `destination_ranges` otherwise); protocol `all` maps to `-1`; an
absent/None port spec maps to `(0, 65535)`, an `A-B` string to `(A, B)`, and
a bare numeric to `(A, A)`. -/
theorem gcp_firewall_characterization :
    (∀ name config file_path sg,
      _parse_gcp_firewall name config file_path = .ok sg →
        (sg.ingress_rules.length + sg.egress_rules.length
            = ((optListField config.allow).map
                (fun blk => (gcpSpecs blk.ports).length)).sum)
        ∧ (∀ r ∈ sg.ingress_rules ++ sg.egress_rules,
            ∃ blk ∈ optListField config.allow,
              r.protocol = gcpProtocol blk.protocol
                ∧ r.cidr_blocks
                    = (if pyUpper (config.direction.getD "INGRESS") == "INGRESS"
                      then optListField config.source_ranges
                      else optListField config.destination_ranges))
        ∧ (config.direction = Option.none → sg.egress_rules = [])
        ∧ ((pyUpper (config.direction.getD "INGRESS") == "INGRESS") = false →
            sg.ingress_rules = []))
    ∧ gcpProtocol (some "all") = "-1"
    ∧ gcpProtocol Option.none = "-1"
    ∧ gcpPortPair Option.none = .ok (0, 65535)
    ∧ (∀ s1 s2 a b, ¬ s1.data.contains '-' = true → ¬ s2.data.contains '-' = true →
        pyInt? s1 = some a → pyInt? s2 = some b →
        gcpPortPair (some (.str (s1 ++ "-" ++ s2))) = .ok (a, b))
    ∧ (∀ s n, ¬ s.data.contains '-' = true → pyInt? s = some n →
        gcpPortPair (some (.str s)) = .ok (n, n)) := by
  refine ⟨?_, rfl, rfl, rfl, ?_, ?_⟩
  · intro name config file_path sg h
    unfold _parse_gcp_firewall at h
    dsimp only at h
    cases h1 : exMap (gcpBlockRules config.description (gcpCidr config))
        (optListField config.allow) with
    | error e => rw [h1] at h; simp [Bind.bind, Except.bind] at h
    | ok rls =>
      rw [h1] at h
      simp only [Bind.bind, Except.bind, Except.ok.injEq] at h
      subst h
      have hlen := gcp_rules_length _ _ _ _ h1
      refine ⟨?_, ?_, ?_, ?_⟩
      · cases hd : pyUpper (config.direction.getD "INGRESS") == "INGRESS" <;>
          simp [hd, hlen]
      · intro r hr
        have hr2 : r ∈ rls.flatten := by
          cases hd : pyUpper (config.direction.getD "INGRESS") == "INGRESS" <;>
            simpa [hd] using hr
        obtain ⟨rules, hrls, hrin⟩ := List.mem_flatten.1 hr2
        obtain ⟨blk, hblk, hbrules⟩ := exMap_ok_mem _ _ _ h1 rules hrls
        unfold gcpBlockRules at hbrules
        obtain ⟨spec, hspec, hok⟩ := exMap_ok_mem _ _ _ hbrules r hrin
        obtain ⟨hp, hc, -⟩ := gcpRuleOfSpec_ok _ _ _ _ _ hok
        refine ⟨blk, hblk, hp, ?_⟩
        rw [hc]
        rfl
      · intro hdnone
        have hIN : pyUpper "INGRESS" = "INGRESS" := by decide
        simp [hdnone, hIN]
      · intro hdf
        simp [hdf]
  · intro s1 s2 a b h1 h2 hp1 hp2
    unfold gcpPortPair
    simp only [IntOrStr.pyStr]
    rw [containsDash_pair]
    simp only [if_true]
    rw [pySplitDash_pair s1 s2 h1 h2]
    simp [hp1, hp2]
  · intro s n h1 hp
    have hcd : containsDash s = false := by
      unfold containsDash
      simpa using h1
    unfold gcpPortPair
    simp [IntOrStr.pyStr, hcd, hp]

/-- Witness for C7: concrete port-spec mappings and a concrete
direction-absent firewall whose rules all land in the ingress bucket. -/
theorem gcp_firewall_characterization_witness :
    gcpPortPair (some (.str ("80" ++ "-" ++ "90"))) = .ok (80, 90)
    ∧ gcpPortPair (some (.str "443")) = .ok (443, 443)
    ∧ (parsedOrDefault (_parse_gcp_firewall "fw"
        { allow := some (.many [{ protocol := some "all" }]) }
        "main.tf")).egress_rules = [] :=
  ⟨gcp_firewall_characterization.2.2.2.2.1 "80" "90" 80 90
      (by decide) (by decide) (by decide) (by decide),
   gcp_firewall_characterization.2.2.2.2.2 "443" 443 (by decide) (by decide),
   (gcp_firewall_characterization.1 "fw"
      { allow := some (.many [{ protocol := some "all" }]) } "main.tf"
      (parsedOrDefault (_parse_gcp_firewall "fw"
        { allow := some (.many [{ protocol := some "all" }]) } "main.tf"))
      (by rfl)).2.2.1 rfl⟩

/-! ## Claim C8 -/

lemma azureRuleContribution_deny (rc : AzureRuleConfig)
    (hd : pyLower (rc.access.getD "") ≠ "allow") :
    azureRuleContribution rc = .ok ([], [], []) := by
  unfold azureRuleContribution
  rw [if_pos]
  simp [bne_iff_ne, hd]

lemma azureProcessRules_all_deny (rules : List AzureRuleConfig)
    (hall : ∀ rc ∈ rules, pyLower (rc.access.getD "") ≠ "allow") :
    azureProcessRules rules = .ok ([], [], []) := by
  induction rules with
  | nil => rfl
  | cons rc rest ih =>
    unfold azureProcessRules
    rw [azureRuleContribution_deny rc (hall rc (List.mem_cons_self rc rest)),
      ih (fun rc2 hm => hall rc2 (List.mem_cons_of_mem rc hm))]
    rfl

lemma pyIsDigit_no_dash (s : String) (h : pyIsDigit s = true) :
    s.data.contains '-' = false := by
  unfold pyIsDigit at h
  simp only [Bool.and_eq_true, List.all_eq_true] at h
  rcases h with ⟨-, hall⟩
  rcases hc : s.data.contains '-' with _ | _
  · rfl
  · have := hall '-' (by simpa [List.elem_iff] using hc)
    simp [Char.isDigit] at this

lemma pyIsDigit_ne_star (s : String) (h : pyIsDigit s = true) : s ≠ "*" := by
  rintro rfl
  exact absurd h (by decide)

/-- C8: in an `azurerm_network_security_group`, only `security_rule` blocks
with access `allow` produce a canonical rule (deny rules contribute nothing
and do not count toward the explicit-rule flags); direction `inbound` routes
to ingress and `outbound` to egress; `destination_port_range` `"*"` maps to
`(0, 65535)`, an `A-B` string to `(A, B)`, a bare numeric string to `(A, A)`;
protocol `"*"` maps to `"-1"`; and the CIDR set is `source_address_prefix`
(with `"*"`/`"Internet"` becoming `0.0.0.0/0`) followed by the
`source_address_prefixes` list. -/
theorem azure_nsg_characterization :
    (∀ rc, pyLower (rc.access.getD "") ≠ "allow" →
      azureRuleContribution rc = .ok ([], [], []))
    ∧ (∀ name config file_path sg,
      _parse_azure_nsg name config file_path = .ok sg →
      (∀ rc ∈ optListField config.security_rule,
        pyLower (rc.access.getD "") ≠ "allow") →
      sg.ingress_rules = [] ∧ sg.egress_rules = []
        ∧ sg.has_explicit_ingress = false ∧ sg.has_explicit_egress = false)
    ∧ (∀ rc i e x, pyLower (rc.access.getD "") = "allow" →
      azureRuleContribution rc = .ok (i, e, x) →
      i.length + e.length = 1
        ∧ (pyLower (rc.direction.getD "") = "inbound" → e = [])
        ∧ (pyLower (rc.direction.getD "") = "outbound" → i = []))
    ∧ azurePortRange (.str "*") = .ok (some 0, some 65535)
    ∧ (∀ s1 s2 a b, ¬ s1.data.contains '-' = true → ¬ s2.data.contains '-' = true →
        pyInt? s1 = some a → pyInt? s2 = some b →
        azurePortRange (.str (s1 ++ "-" ++ s2)) = .ok (some a, some b))
    ∧ (∀ s n, pyIsDigit s = true → pyInt? s = some n →
        azurePortRange (.str s) = .ok (some n, some n))
    ∧ azureProtocol (some "*") = "-1"
    ∧ azureProtocol Option.none = "-1"
    ∧ (∀ xs, azureCidr (some "*") (some (.many xs)) = "0.0.0.0/0" :: xs)
    ∧ (∀ xs, azureCidr (some "Internet") (some (.many xs)) = "0.0.0.0/0" :: xs)
    ∧ (∀ src xs, src ≠ "*" → src ≠ "Internet" → src ≠ "" →
        azureCidr (some src) (some (.many xs)) = src :: xs) := by
  refine ⟨fun rc hd => azureRuleContribution_deny rc hd,
    ?_, ?_, rfl, ?_, ?_, rfl, rfl, fun xs => rfl, fun xs => rfl, ?_⟩
  · intro name config file_path sg h hall
    unfold _parse_azure_nsg at h
    rw [azureProcessRules_all_deny (optListField config.security_rule) hall]
      at h
    simp only [Bind.bind, Except.bind, Except.ok.injEq] at h
    subst h
    exact ⟨rfl, rfl, rfl, rfl⟩
  · intro rc i e x hallow h
    unfold azureRuleContribution at h
    rw [if_neg (by simp [bne_iff_ne, hallow])] at h
    cases h1 : azurePortRange (rc.destination_port_range.getD (IntOrStr.str "*"))
        with
    | error er => rw [h1] at h; simp [Bind.bind, Except.bind] at h
    | ok ft =>
      obtain ⟨f, t⟩ := ft
      rw [h1] at h
      simp only [Bind.bind, Except.bind] at h
      cases hd : pyLower (rc.direction.getD "") == "inbound"
      · rw [hd] at h
        simp only [Bool.false_eq_true, if_false, Except.ok.injEq] at h
        obtain ⟨rfl, rfl, rfl⟩ := h.symm
        refine ⟨rfl, ?_, fun _ => rfl⟩
        intro hdir
        rw [hdir] at hd
        simp at hd
      · rw [hd] at h
        simp only [if_true, Except.ok.injEq] at h
        obtain ⟨rfl, rfl, rfl⟩ := h.symm
        refine ⟨rfl, fun _ => rfl, ?_⟩
        intro hdir
        rw [hdir] at hd
        simp at hd
  · intro s1 s2 a b h1 h2 hp1 hp2
    have hne : (IntOrStr.str (s1 ++ "-" ++ s2) == IntOrStr.str "*") = false := by
      simp only [beq_eq_false_iff_ne, ne_eq, IntOrStr.str.injEq]
      intro heq
      have := containsDash_pair s1 s2
      rw [heq] at this
      simp [containsDash, List.elem_iff] at this
    unfold azurePortRange
    rw [hne]
    simp only [Bool.false_eq_true, if_false, IntOrStr.pyStr]
    rw [containsDash_pair]
    simp only [if_true]
    rw [pySplitDash_pair s1 s2 h1 h2]
    simp [hp1, hp2]
  · intro s n hdig hp
    have hne : (IntOrStr.str s == IntOrStr.str "*") = false := by
      simp only [beq_eq_false_iff_ne, ne_eq, IntOrStr.str.injEq]
      exact pyIsDigit_ne_star s hdig
    have hcd : containsDash s = false := by
      unfold containsDash
      exact pyIsDigit_no_dash s hdig
    unfold azurePortRange
    rw [hne]
    simp only [Bool.false_eq_true, if_false, IntOrStr.pyStr]
    rw [hcd]
    simp [hdig, hp]
  · intro src xs h1 h2 h3
    have h4 : src.isEmpty = false := by
      rcases hh : src.isEmpty with _ | _
      · rfl
      · exact absurd ((String.isEmpty_iff src).1 hh) h3
    unfold azureCidr
    simp [h1, h2, h3, h4]

/-- Witness for C8: a concrete deny rule contributes nothing; a concrete
allow/inbound rule contributes no egress rule; concrete port strings map as
specified. -/
theorem azure_nsg_characterization_witness :
    azureRuleContribution { access := some "Deny" } = .ok ([], [], [])
    ∧ (contribOrDefault (azureRuleContribution
        { access := some "Allow", direction := some "Inbound" })).2.1 = []
    ∧ azurePortRange (.str ("100" ++ "-" ++ "200")) = .ok (some 100, some 200)
    ∧ azurePortRange (.str "443") = .ok (some 443, some 443)
    ∧ azureCidr (some "10.0.0.0/8") (some (.many ["10.1.0.0/16"]))
        = ["10.0.0.0/8", "10.1.0.0/16"] :=
  ⟨azure_nsg_characterization.1 { access := some "Deny" } (by decide),
   (azure_nsg_characterization.2.2.1
      { access := some "Allow", direction := some "Inbound" }
      (contribOrDefault (azureRuleContribution
        { access := some "Allow", direction := some "Inbound" })).1
      (contribOrDefault (azureRuleContribution
        { access := some "Allow", direction := some "Inbound" })).2.1
      (contribOrDefault (azureRuleContribution
        { access := some "Allow", direction := some "Inbound" })).2.2
      (by decide) (by rfl)).2.1 (by decide),
   azure_nsg_characterization.2.2.2.2.1 "100" "200" 100 200
      (by decide) (by decide) (by decide) (by decide),
   azure_nsg_characterization.2.2.2.2.2.1 "443" 443 (by decide) (by decide),
   azure_nsg_characterization.2.2.2.2.2.2.2.2.2.2 "10.0.0.0/8" ["10.1.0.0/16"]
      (by decide) (by decide) (by decide)⟩

/-! ## Order and sorting lemmas for `pySorted` -/

lemma charListLe_total : ∀ a b : List Char,
    charListLe a b = true ∨ charListLe b a = true := by
  intro a
  induction a with
  | nil => intro b; left; rfl
  | cons x xs ih =>
    intro b
    cases b with
    | nil => right; rfl
    | cons y ys =>
      rcases lt_trichotomy x y with hxy | rfl | hxy
      · left
        simp [charListLe, hxy]
      · rcases ih ys with h | h
        · left
          simp [charListLe, lt_irrefl, h]
        · right
          simp [charListLe, lt_irrefl, h]
      · right
        simp [charListLe, hxy]

lemma charListLe_trans : ∀ a b c : List Char, charListLe a b = true →
    charListLe b c = true → charListLe a c = true := by
  intro a
  induction a with
  | nil => intro b c _ _; rfl
  | cons x xs ih =>
    intro b c h1 h2
    cases b with
    | nil => simp [charListLe] at h1
    | cons y ys =>
      cases c with
      | nil => simp [charListLe] at h2
      | cons z zs =>
        rcases lt_trichotomy x y with hxy | rfl | hxy
        · rcases lt_trichotomy y z with hyz | rfl | hyz
          · simp [charListLe, lt_trans hxy hyz]
          · simp [charListLe, hxy]
          · simp [charListLe, lt_asymm hyz, hyz] at h2
        · rcases lt_trichotomy x z with hxz | rfl | hxz
          · simp [charListLe, hxz]
          · simp only [charListLe, lt_irrefl, if_false] at h1 h2 ⊢
            exact ih ys zs h1 h2
          · simp [charListLe, lt_asymm hxz, hxz] at h2
        · simp [charListLe, lt_asymm hxy, hxy] at h1

lemma pyStrLe_total (a b : String) :
    pyStrLe a b = true ∨ pyStrLe b a = true := charListLe_total a.data b.data

lemma pyStrLe_trans (a b c : String) (h1 : pyStrLe a b = true)
    (h2 : pyStrLe b c = true) : pyStrLe a c = true :=
  charListLe_trans a.data b.data c.data h1 h2

lemma mem_insertLe (z x : String) (l : List String) :
    z ∈ insertLe x l ↔ z = x ∨ z ∈ l := by
  induction l with
  | nil => simp [insertLe]
  | cons y ys ih =>
    unfold insertLe
    by_cases h : pyStrLe x y = true
    · rw [if_pos h]
      exact List.mem_cons
    · rw [if_neg h, List.mem_cons, ih, List.mem_cons]
      tauto

lemma sorted_insertLe (x : String) (l : List String)
    (h : List.Pairwise (fun a b => pyStrLe a b = true) l) :
    List.Pairwise (fun a b => pyStrLe a b = true) (insertLe x l) := by
  induction l with
  | nil => simp [insertLe]
  | cons y ys ih =>
    rcases List.pairwise_cons.1 h with ⟨hy, hys⟩
    unfold insertLe
    by_cases hxy : pyStrLe x y = true
    · rw [if_pos hxy]
      refine List.Pairwise.cons ?_ h
      intro z hz
      rcases List.mem_cons.1 hz with rfl | hz2
      · exact hxy
      · exact pyStrLe_trans x y z hxy (hy z hz2)
    · rw [if_neg hxy]
      have hyx : pyStrLe y x = true := (pyStrLe_total x y).resolve_left hxy
      refine List.Pairwise.cons ?_ (ih hys)
      intro z hz
      rcases (mem_insertLe z x ys).1 hz with rfl | hz2
      · exact hyx
      · exact hy z hz2

lemma sorted_pySorted (l : List String) :
    List.Pairwise (fun a b => pyStrLe a b = true) (pySorted l) := by
  induction l with
  | nil => exact List.Pairwise.nil
  | cons x xs ih => exact sorted_insertLe x (pySorted xs) ih

lemma mem_pySorted (z : String) (l : List String) :
    z ∈ pySorted l ↔ z ∈ l := by
  induction l with
  | nil => simp [pySorted]
  | cons x xs ih =>
    unfold pySorted
    rw [mem_insertLe]
    simp [ih]

/-! ## Walk-loop lemmas -/

lemma processFile_source (acc : InvAcc) (f : TfFile) (acc1 : InvAcc)
    (h : processFile acc f = .ok acc1) :
    (pyEndsWith f.filename ".tf" = true →
      acc1.source_files = acc.source_files ++ [f.rel_path])
    ∧ (pyEndsWith f.filename ".tf" = false →
      acc1.source_files = acc.source_files) := by
  unfold processFile at h
  cases he : pyEndsWith f.filename ".tf"
  · rw [he] at h
    simp only [Bool.not_false, if_true, Except.ok.injEq] at h
    subst h
    exact ⟨fun hc => absurd hc (by simp [he]), fun _ => rfl⟩
  · rw [he] at h
    simp only [Bool.not_true, Bool.false_eq_true, if_false] at h
    refine ⟨fun _ => ?_, fun hc => absurd hc (by simp [he])⟩
    cases hp : f.parsed with
    | none =>
      rw [hp] at h
      dsimp only at h
      simp only [Except.ok.injEq] at h
      subst h
      rfl
    | some parsed =>
      rw [hp] at h
      dsimp only at h
      cases hsg : extract_security_groups parsed f.rel_path with
      | error e => rw [hsg] at h; simp [Bind.bind, Except.bind] at h
      | ok sgs =>
        rw [hsg] at h
        simp only [Bind.bind, Except.bind, Except.ok.injEq] at h
        subst h
        rfl

lemma extractLoop_source_superset : ∀ (files : List TfFile) (acc acc2 : InvAcc),
    extractLoop acc files = .ok acc2 →
    ∃ tail, acc2.source_files = acc.source_files ++ tail := by
  intro files
  induction files with
  | nil =>
    intro acc acc2 h
    unfold extractLoop at h
    simp only [Except.ok.injEq] at h
    subst h
    exact ⟨[], (List.append_nil _).symm⟩
  | cons f fs ih =>
    intro acc acc2 h
    unfold extractLoop at h
    cases h1 : processFile acc f with
    | error e => rw [h1] at h; simp [Bind.bind, Except.bind] at h
    | ok acc1 =>
      rw [h1] at h
      simp only [Bind.bind, Except.bind] at h
      obtain ⟨t2, ht2⟩ := ih acc1 acc2 h
      obtain ⟨hT, hF⟩ := processFile_source acc f acc1 h1
      cases he : pyEndsWith f.filename ".tf"
      · exact ⟨t2, by rw [ht2, hF he]⟩
      · exact ⟨[f.rel_path] ++ t2, by rw [ht2, hT he, List.append_assoc]⟩

lemma extractLoop_mem_source : ∀ (files : List TfFile) (acc acc2 : InvAcc),
    extractLoop acc files = .ok acc2 →
    ∀ f ∈ files, pyEndsWith f.filename ".tf" = true →
      f.rel_path ∈ acc2.source_files := by
  intro files
  induction files with
  | nil => intro acc acc2 h f hf; cases hf
  | cons g gs ih =>
    intro acc acc2 h f hf htf
    unfold extractLoop at h
    cases h1 : processFile acc g with
    | error e => rw [h1] at h; simp [Bind.bind, Except.bind] at h
    | ok acc1 =>
      rw [h1] at h
      simp only [Bind.bind, Except.bind] at h
      rcases List.mem_cons.1 hf with rfl | hf2
      · obtain ⟨t2, ht2⟩ := extractLoop_source_superset gs acc1 acc2 h
        have hsrc := (processFile_source acc f acc1 h1).1 htf
        rw [ht2, hsrc]
        simp
      · exact ih acc1 acc2 h f hf2 htf

/-! ## Claim C10 -/

/-- C10: every file ending in `.tf` encountered by the walk has its relative
path recorded in `source_files` — the path is appended before parsing, so
parse-failed files appear too; moreover a `.tf` file whose parse failed
contributes only its path and no resources. -/
theorem tf_files_recorded_before_parsing (ts : String) (files : List TfFile)
    (inv : NetworkInventory) (h : extract_network_inventory ts files = .ok inv) :
    (∀ f ∈ files, pyEndsWith f.filename ".tf" = true →
      f.rel_path ∈ inv.source_files)
    ∧ (∀ (acc : InvAcc) (f : TfFile), pyEndsWith f.filename ".tf" = true →
      f.parsed = Option.none →
      processFile acc f
        = .ok { acc with source_files := acc.source_files ++ [f.rel_path] }) := by
  constructor
  · intro f hf htf
    unfold extract_network_inventory at h
    cases h1 : extractLoop {} files with
    | error e => rw [h1] at h; simp [Bind.bind, Except.bind] at h
    | ok acc =>
      rw [h1] at h
      simp only [Bind.bind, Except.bind, Except.ok.injEq] at h
      subst h
      show f.rel_path ∈ pySorted acc.source_files
      rw [mem_pySorted]
      exact extractLoop_mem_source files {} acc h1 f hf htf
  · intro acc f htf hp
    unfold processFile
    rw [htf, hp]
    rfl

/-- Witness for C10: a `.tf` file the HCL parser fails on still appears in
the extracted inventory's `source_files`. -/
theorem tf_files_recorded_before_parsing_witness :
    "bad.tf" ∈ (parsedInvOrDefault (extract_network_inventory "t0"
      [{ filename := "bad.tf", rel_path := "bad.tf",
         parsed := Option.none }])).source_files :=
  (tf_files_recorded_before_parsing "t0"
    [{ filename := "bad.tf", rel_path := "bad.tf", parsed := Option.none }]
    (parsedInvOrDefault (extract_network_inventory "t0"
      [{ filename := "bad.tf", rel_path := "bad.tf", parsed := Option.none }]))
    (by rfl)).1
    { filename := "bad.tf", rel_path := "bad.tf", parsed := Option.none }
    (by decide) (by decide)

/-! ## Claim C9 -/

/-- C9, counterexample: the claim that every inventory resource list is
sorted by path/name fails — a single file declaring `aws_security_group.z`
before `aws_security_group.a` yields a `security_groups` list in declaration
order, not sorted order (only `source_files` is sorted by the code). -/
theorem inventory_lists_sorted_cex :
    ((parsedInvOrDefault
        (extract_network_inventory "t0" cexFiles)).security_groups.map
          (fun sg => sg.resource_address))
      = ["aws_security_group.z", "aws_security_group.a"]
    ∧ ¬ List.Pairwise (fun a b => pyStrLe a b = true)
        ((parsedInvOrDefault
          (extract_network_inventory "t0" cexFiles)).security_groups.map
            (fun sg => sg.resource_address)) := by
  refine ⟨by decide, ?_⟩
  rw [show ((parsedInvOrDefault
      (extract_network_inventory "t0" cexFiles)).security_groups.map
        (fun sg => sg.resource_address))
    = ["aws_security_group.z", "aws_security_group.a"] from by decide]
  decide

/-- C9 amended: in the inventory returned by `extract_network_inventory`,
the file list `source_files` is sorted lexicographically (deterministic) and
the extraction timestamp is recorded exactly once per run; the resource lists
are left in walk/extraction order, not sorted. -/
theorem source_files_sorted_and_timestamp (ts : String) (files : List TfFile)
    (inv : NetworkInventory) (h : extract_network_inventory ts files = .ok inv) :
    List.Pairwise (fun a b => pyStrLe a b = true) inv.source_files
    ∧ inv.extracted_at = ts := by
  unfold extract_network_inventory at h
  cases h1 : extractLoop {} files with
  | error e => rw [h1] at h; simp [Bind.bind, Except.bind] at h
  | ok acc =>
    rw [h1] at h
    simp only [Bind.bind, Except.bind, Except.ok.injEq] at h
    subst h
    exact ⟨sorted_pySorted acc.source_files, rfl⟩

/-- Witness for the amended C9 at the concrete two-group walk. -/
theorem source_files_sorted_and_timestamp_witness :
    List.Pairwise (fun a b => pyStrLe a b = true)
      (parsedInvOrDefault
        (extract_network_inventory "t0" cexFiles)).source_files
    ∧ (parsedInvOrDefault
        (extract_network_inventory "t0" cexFiles)).extracted_at = "t0" :=
  source_files_sorted_and_timestamp "t0" cexFiles
    (parsedInvOrDefault (extract_network_inventory "t0" cexFiles)) (by rfl)

end KsiChecker
